import Mathlib

/-!
Verification development for the dental-clinic backend (`src/api_server.py`).

The Flask handlers are shallowly embedded as pure Lean functions.  JSON
request/response bodies are modelled by the inductive `Json`; Python dict /
list operations that can raise are modelled in `Except PyError`; every
outbound HTTP call made by a handler is modelled by passing the upstream
response (status code and decoded body) as an argument, since the handlers
only consume those responses.  Environment variables are modelled as a
function `String → Option String` (`os.getenv`).  Machine floats of the
source are modelled as exact rationals.
-/

set_option maxRecDepth 4000

/-- JSON values (the decoded bodies Flask's `request.json` hands to the
handlers, and the values the handlers build).  Python distinguishes ints
from floats; both decode to `num` here, which is irrelevant to the claims
checked below.  Objects are key/value lists in insertion order (Python
dicts preserve insertion order and hold no duplicate keys). -/
inductive Json where
  | null : Json
  | bool (b : Bool) : Json
  | num (q : ℚ) : Json
  | str (s : String) : Json
  | arr (xs : List Json) : Json
  | obj (fields : List (String × Json)) : Json

/-- Python exceptions that the embedded handlers can raise internally.
Each route handler catches them at its boundary (`except Exception`). -/
inductive PyError where
  | keyError (k : String) : PyError
  | typeError (msg : String) : PyError
  | valueError (msg : String) : PyError
  | attributeError (msg : String) : PyError
  | nameError (n : String) : PyError
  deriving DecidableEq

/-- A single apostrophe, used when rendering Python exception messages. -/
def qS : String := String.singleton (Char.ofNat 39)

/-- Rendering of `str(e)` for the exceptions above (Python renders
`KeyError` as the quoted key, `NameError` as shown; other messages are
carried verbatim). -/
def pyErrStr : PyError → String
  | .keyError k => qS ++ k ++ qS
  | .typeError m => m
  | .valueError m => m
  | .attributeError m => m
  | .nameError n => "name " ++ qS ++ n ++ qS ++ " is not defined"

/-- Python truthiness (`bool(x)`) of a JSON value: `None`, `False`, `0`,
empty string, empty list and empty dict are falsy. -/
def pyTruthy : Json → Bool
  | .null => false
  | .bool b => b
  | .num q => q != 0
  | .str s => s != ""
  | .arr xs => !xs.isEmpty
  | .obj fs => !fs.isEmpty

/-- Truthiness of a possibly-absent value (`dict.get` returns `None` when
the key is missing, and `None` is falsy). -/
def optJTruthy : Option Json → Bool
  | none => false
  | some v => pyTruthy v

/-- First-match lookup in an object's field list (Python dicts have unique
keys, so first match is the lookup). `none` when the value is not an
object or the key is absent. -/
def objLookup : Json → String → Option Json
  | .obj fs, k => fs.lookup k
  | _, _ => none

/-- `d.get(k)`: `AttributeError` when `d` is not a dict, else the value or
`None`. -/
def pyGet (d : Json) (k : String) : Except PyError (Option Json) :=
  match d with
  | .obj _ => .ok (objLookup d k)
  | _ => .error (.attributeError ("object has no attribute " ++ qS ++ "get" ++ qS ++ " (key " ++ k ++ ")"))

/-- `d.get(k, default)`. -/
def pyGetD (d : Json) (k : String) (default : Json) : Except PyError Json := do
  pure ((← pyGet d k).getD default)

/-- `d[k]` with a string key: `KeyError` when the key is absent,
`TypeError` when `d` is not a dict. -/
def pySub (d : Json) (k : String) : Except PyError Json :=
  match d with
  | .obj _ =>
    match objLookup d k with
    | some v => .ok v
    | none => .error (.keyError k)
  | _ => .error (.typeError ("value is not subscriptable by string key " ++ k))

/-- Whether `pat` is an initial segment of `s`. -/
def listStartsWith : List Char → List Char → Bool
  | _, [] => true
  | [], _ :: _ => false
  | c :: cs, p :: ps => c == p && listStartsWith cs ps

/-- Whether `pat` occurs as a contiguous subsequence of `s`. -/
def listContainsSeq (pat : List Char) : List Char → Bool
  | [] => pat.isEmpty
  | c :: cs => listStartsWith (c :: cs) pat || listContainsSeq pat cs

/-- Whether `pat` occurs as a substring of `s` (Python `pat in s`; the
empty needle is contained in everything). -/
def strContainsSub (s pat : String) : Bool :=
  listContainsSeq pat.data s.data

/-- Equality test of a JSON value against a Python string literal
(`x == "lit"`: true exactly when `x` is that string). -/
def jsonEqStr (j : Json) (s : String) : Bool :=
  match j with
  | .str t => t == s
  | _ => false

/-- Python membership `k in d` for a string needle: key membership for a
dict, element equality for a list, substring for a string, `TypeError`
otherwise. -/
def pyIn (k : String) (d : Json) : Except PyError Bool :=
  match d with
  | .obj fs => .ok (fs.lookup k).isSome
  | .arr xs => .ok (xs.any (fun j => jsonEqStr j k))
  | .str s => .ok (strContainsSub s k)
  | _ => .error (.typeError "argument of type is not iterable")

/-- Python iteration `for x in d`: list elements, string characters,
dict keys; `TypeError` otherwise. -/
def pyIter (d : Json) : Except PyError (List Json) :=
  match d with
  | .arr xs => .ok xs
  | .str s => .ok (s.data.map (fun c => Json.str (String.singleton c)))
  | .obj fs => .ok (fs.map (fun f => Json.str f.1))
  | _ => .error (.typeError "object is not iterable")

/-- `d[0]`, used by the source only on values already known truthy. -/
def pyIndex0 (d : Json) : Except PyError Json :=
  match d with
  | .arr (x :: _) => .ok x
  | .arr [] => .error (.typeError "list index out of range")
  | .str s =>
    match s.data with
    | c :: _ => .ok (.str (String.singleton c))
    | [] => .error (.typeError "string index out of range")
  | _ => .error (.typeError "value is not subscriptable by integer")

/-- `len(d)`. -/
def pyLen (d : Json) : Except PyError Nat :=
  match d with
  | .arr xs => .ok xs.length
  | .obj fs => .ok fs.length
  | .str s => .ok s.length
  | _ => .error (.typeError "object has no len()")

/-- Truncation of a rational toward zero (Python `int(float)`). -/
def intTrunc (q : ℚ) : Int :=
  if 0 ≤ q then ⌊q⌋ else -⌊-q⌋

/-- Digits of a string, if it is entirely decimal digits (non-empty). -/
def digitsToNat : List Char → Option Nat
  | [] => none
  | cs => cs.foldlM (fun acc c => if c.isDigit then some (acc * 10 + (c.toNat - 48)) else none) 0

/-- Python `int(s)` on a string: optional surrounding whitespace, optional
sign, decimal digits (digit-group underscores are not modelled). -/
def parsePyInt (s : String) : Option Int :=
  let cs := s.data.dropWhile (·.isWhitespace)
  let cs := (cs.reverse.dropWhile (·.isWhitespace)).reverse
  match cs with
  | '+' :: rest => (digitsToNat rest).map Int.ofNat
  | '-' :: rest => (digitsToNat rest).map (fun n => -(Int.ofNat n))
  | rest => (digitsToNat rest).map Int.ofNat

/-- Python `int(x)` on a decoded JSON value: floats truncate toward zero,
booleans map to 0/1, strings parse or raise `ValueError`, anything else
raises `TypeError`. -/
def pyInt (j : Json) : Except PyError Int :=
  match j with
  | .num q => .ok (intTrunc q)
  | .bool b => .ok (if b then 1 else 0)
  | .str s =>
    match parsePyInt s with
    | some n => .ok n
    | none => .error (.valueError ("invalid literal for int() with base 10: " ++ qS ++ s ++ qS))
  | .null => .error (.typeError "int() argument must be a string or a number, not NoneType")
  | _ => .error (.typeError "int() argument must be a string or a number")

/-- Decimal-string parsing for Python `float(s)`: optional sign, digits
with an optional fraction part and an optional exponent ("inf"/"nan" are
not modelled). -/
def parsePyFloat (s : String) : Option ℚ :=
  let cs := s.data.dropWhile (·.isWhitespace)
  let cs := (cs.reverse.dropWhile (·.isWhitespace)).reverse
  let signed : List Char → Option (Bool × List Char) := fun l =>
    match l with
    | '+' :: rest => some (false, rest)
    | '-' :: rest => some (true, rest)
    | rest => some (false, rest)
  match signed cs with
  | none => none
  | some (neg, body) =>
    let intPart := body.takeWhile (·.isDigit)
    let rest1 := body.dropWhile (·.isDigit)
    let withFrac : Option (ℚ × List Char) :=
      match rest1 with
      | '.' :: more =>
        let fracPart := more.takeWhile (·.isDigit)
        let rest2 := more.dropWhile (·.isDigit)
        if intPart.isEmpty && fracPart.isEmpty then none
        else
          let ip : Nat := (digitsToNat intPart).getD 0
          let fp : Nat := (digitsToNat fracPart).getD 0
          some (((ip : ℚ) + (fp : ℚ) / ((10 : ℚ) ^ fracPart.length)), rest2)
      | _ =>
        if intPart.isEmpty then none
        else some (((digitsToNat intPart).getD 0 : ℚ), rest1)
    match withFrac with
    | none => none
    | some (mag, rest2) =>
      let applyExp : List Char → Option ℚ := fun l =>
        match l with
        | [] => some mag
        | e :: more =>
          if e == 'e' || e == 'E' then
            match signed more with
            | some (eneg, eds) =>
              match digitsToNat eds with
              | some n => some (if eneg then mag / ((10 : ℚ) ^ n) else mag * ((10 : ℚ) ^ n))
              | none => none
            | none => none
          else none
      match applyExp rest2 with
      | none => none
      | some v => some (if neg then -v else v)

/-- Python `float(x)` on a decoded JSON value. -/
def pyFloat (j : Json) : Except PyError ℚ :=
  match j with
  | .num q => .ok q
  | .bool b => .ok (if b then 1 else 0)
  | .str s =>
    match parsePyFloat s with
    | some q => .ok q
    | none => .error (.valueError ("could not convert string to float: " ++ qS ++ s ++ qS))
  | .null => .error (.typeError "float() argument must be a string or a number, not NoneType")
  | _ => .error (.typeError "float() argument must be a string or a number")

mutual

/-- Python `repr` of a decoded JSON value (strings quoted, containers
rendered element-wise; used by `str` on containers and in f-strings). -/
def pyRepr : Json → String
  | .null => "None"
  | .bool true => "True"
  | .bool false => "False"
  | .num q => if q.den == 1 then toString q.num else toString q
  | .str s => qS ++ s ++ qS
  | .arr xs => "[" ++ pyReprList xs ++ "]"
  | .obj fs => "\x7b" ++ pyReprFields fs ++ "\x7d"

/-- Comma-separated `repr` of list elements. -/
def pyReprList : List Json → String
  | [] => ""
  | [x] => pyRepr x
  | x :: xs => pyRepr x ++ ", " ++ pyReprList xs

/-- Comma-separated `repr` of dict entries. -/
def pyReprFields : List (String × Json) → String
  | [] => ""
  | [kv] => qS ++ kv.1 ++ qS ++ ": " ++ pyRepr kv.2
  | kv :: fs => qS ++ kv.1 ++ qS ++ ": " ++ pyRepr kv.2 ++ ", " ++ pyReprFields fs

end

/-- Python `str(x)` (as used by f-string interpolation): identity on
strings, `repr` otherwise. -/
def pyStr (j : Json) : String :=
  match j with
  | .str s => s
  | _ => pyRepr j

/-- `str` of a possibly-absent value (`str(None)` is "None"). -/
def pyStrOpt (o : Option Json) : String :=
  match o with
  | some v => pyStr v
  | none => "None"

/-- Python `a or b` over two possibly-absent values: the first when
truthy, else the second. -/
def pyOrOpt (a b : Option Json) : Option Json :=
  if optJTruthy a then a else b

/-- Python `a or default` where the default is a literal: the value when
truthy, else the default. -/
def pyOrDefault (a : Option Json) (d : Json) : Json :=
  match a with
  | some v => if pyTruthy v then v else d
  | none => d

/-- A possibly-absent value as the JSON it renders to (`None` → `null`). -/
def optToJson (o : Option Json) : Json :=
  o.getD Json.null

/-! JSON text parsing: a model of Python `json.loads`, needed because the
voice-agent webhook decodes tool-call arguments that arrive as strings
(`api_server.py` lines 225-232).  Fuel-indexed recursive-descent parser;
on any input the source wraps the call in `try/except`, so only success
versus failure (and the decoded value on success) is observable. -/

/-- Skip JSON whitespace. -/
def jsonSkipWs : List Char → List Char
  | c :: cs => if c == ' ' || c == '\t' || c == '\n' || c == '\r' then jsonSkipWs cs else c :: cs
  | [] => []

/-- Value of a hexadecimal digit. -/
def hexDigitVal (c : Char) : Option Nat :=
  if c.isDigit then some (c.toNat - 48)
  else if 'a' ≤ c && c ≤ 'f' then some (c.toNat - 87)
  else if 'A' ≤ c && c ≤ 'F' then some (c.toNat - 55)
  else none

/-- The character a single-letter JSON escape denotes. -/
def jsonEscapeChar (e : Char) : Option Char :=
  if e == '"' then some '"'
  else if e == '\\' then some '\\'
  else if e == '/' then some '/'
  else if e == 'n' then some '\n'
  else if e == 't' then some '\t'
  else if e == 'r' then some '\r'
  else if e == 'b' then some (Char.ofNat 8)
  else if e == 'f' then some (Char.ofNat 12)
  else none

/-- Parse the tail of a JSON string literal (after the opening quote),
returning the content and the remainder after the closing quote. -/
def jsonParseStringTail : List Char → Option (String × List Char)
  | [] => none
  | '"' :: rest => some ("", rest)
  | '\\' :: 'u' :: h1 :: h2 :: h3 :: h4 :: r => do
    let a ← hexDigitVal h1
    let b ← hexDigitVal h2
    let c ← hexDigitVal h3
    let d ← hexDigitVal h4
    let (s, r2) ← jsonParseStringTail r
    pure (String.singleton (Char.ofNat (((a * 16 + b) * 16 + c) * 16 + d)) ++ s, r2)
  | '\\' :: e :: rest => do
    let c ← jsonEscapeChar e
    let (s, r2) ← jsonParseStringTail rest
    pure (String.singleton c ++ s, r2)
  | c :: rest => do
    let (s, r2) ← jsonParseStringTail rest
    pure (String.singleton c ++ s, r2)

/-- Parse a JSON number starting at the given characters. -/
def jsonParseNum (cs : List Char) : Option (ℚ × List Char) :=
  let (neg, body) :=
    match cs with
    | '-' :: rest => (true, rest)
    | rest => (false, rest)
  let intPart := body.takeWhile (·.isDigit)
  if intPart.isEmpty then none
  else
    let rest1 := body.dropWhile (·.isDigit)
    let ip : Nat := (digitsToNat intPart).getD 0
    let step1 : ℚ × List Char :=
      match rest1 with
      | '.' :: more =>
        let fracPart := more.takeWhile (fun c => c.isDigit)
        if fracPart.isEmpty then ((ip : ℚ), rest1)
        else (((ip : ℚ) + ((digitsToNat fracPart).getD 0 : ℚ) / ((10 : ℚ) ^ fracPart.length)),
              more.dropWhile (fun c => c.isDigit))
      | _ => ((ip : ℚ), rest1)
    let mag1 := step1.1
    let rest2 := step1.2
    let step2 : ℚ × List Char :=
      match rest2 with
      | e :: more =>
        if e == 'e' || e == 'E' then
          let signSplit : Bool × List Char :=
            match more with
            | '-' :: r => (true, r)
            | '+' :: r => (false, r)
            | r => (false, r)
          let eneg := signSplit.1
          let eds0 := signSplit.2
          let eds := eds0.takeWhile (fun c => c.isDigit)
          if eds.isEmpty then (mag1, rest2)
          else
            let n := (digitsToNat eds).getD 0
            ((if eneg then mag1 / ((10 : ℚ) ^ n) else mag1 * ((10 : ℚ) ^ n)),
             eds0.dropWhile (fun c => c.isDigit))
        else (mag1, rest2)
      | [] => (mag1, rest2)
    some ((if neg then -step2.1 else step2.1), step2.2)

mutual

/-- Parse one JSON value (fuel bounds container nesting). -/
def jsonParseVal (fuel : Nat) (cs : List Char) : Option (Json × List Char) :=
  match fuel with
  | 0 => none
  | fuel + 1 =>
    match jsonSkipWs cs with
    | 'n' :: 'u' :: 'l' :: 'l' :: rest => some (.null, rest)
    | 't' :: 'r' :: 'u' :: 'e' :: rest => some (.bool true, rest)
    | 'f' :: 'a' :: 'l' :: 's' :: 'e' :: rest => some (.bool false, rest)
    | '"' :: rest => do
      let (s, r) ← jsonParseStringTail rest
      pure (.str s, r)
    | '[' :: rest =>
      (match jsonSkipWs rest with
       | ']' :: r => some (.arr [], r)
       | body => do
         let (xs, r) ← jsonParseItems fuel body
         pure (.arr xs, r))
    | '\x7b' :: rest =>
      (match jsonSkipWs rest with
       | '\x7d' :: r => some (.obj [], r)
       | body => do
         let (fs, r) ← jsonParseMembers fuel body
         pure (.obj fs, r))
    | other => (jsonParseNum other).map (fun p => (Json.num p.1, p.2))

/-- Parse the non-empty comma-separated items of an array, including the
closing bracket. -/
def jsonParseItems (fuel : Nat) (cs : List Char) : Option (List Json × List Char) :=
  match fuel with
  | 0 => none
  | fuel + 1 => do
    let (v, r) ← jsonParseVal fuel cs
    match jsonSkipWs r with
    | ',' :: more => do
      let (xs, r2) ← jsonParseItems fuel more
      pure (v :: xs, r2)
    | ']' :: r2 => pure ([v], r2)
    | _ => none

/-- Parse the non-empty comma-separated members of an object, including
the closing brace. -/
def jsonParseMembers (fuel : Nat) (cs : List Char) : Option (List (String × Json) × List Char) :=
  match fuel with
  | 0 => none
  | fuel + 1 =>
    match jsonSkipWs cs with
    | '"' :: rest => do
      let (k, r) ← jsonParseStringTail rest
      match jsonSkipWs r with
      | ':' :: more => do
        let (v, r2) ← jsonParseVal fuel more
        match jsonSkipWs r2 with
        | ',' :: even_more => do
          let (fs, r3) ← jsonParseMembers fuel even_more
          pure ((k, v) :: fs, r3)
        | '\x7d' :: r3 => pure ([(k, v)], r3)
        | _ => none
      | _ => none
    | _ => none

end

/-- Model of Python `json.loads` on a string: `none` when decoding fails
(which the source turns into an empty-dict fallback). -/
def jsonLoads (s : String) : Option Json := do
  let (v, rest) ← jsonParseVal (s.length + 1) s.data
  if (jsonSkipWs rest).isEmpty then pure v else none

/-! Datetime model.  `datetime.fromisoformat`, timezone attachment and
`timedelta(hours=1)` from the booking handler are modelled with an
absolute wall-clock second count (days from the proleptic Gregorian civil
calendar) plus an optional timezone. -/

/-- A timezone attached to a datetime: either a named `ZoneInfo` zone or a
fixed UTC offset in minutes (what an ISO string's `+HH:MM` / `Z` suffix
produces). -/
inductive TzInfo where
  | zone (name : String) : TzInfo
  | utcOffset (minutes : Int) : TzInfo
  deriving DecidableEq

/-- A Python `datetime`: naive wall-clock seconds since the civil epoch,
plus the optional `tzinfo`.  Adding a `timedelta` adds to `secs` and keeps
`tz`. -/
structure PyDateTime where
  secs : Int
  tz : Option TzInfo
  deriving DecidableEq

/-- Day count of a proleptic Gregorian date from the civil epoch
(1970-01-01), standard era/year-of-era computation. -/
def daysFromCivil (y m d : Int) : Int :=
  let y1 := y - (if m ≤ 2 then 1 else 0)
  let era := (if 0 ≤ y1 then y1 else y1 - 399) / 400
  let yoe := y1 - era * 400
  let mp := if 2 < m then m - 3 else m + 9
  let doy := (153 * mp + 2) / 5 + d - 1
  let doe := yoe * 365 + yoe / 4 - yoe / 100 + doy
  era * 146097 + doe - 719468

/-- Whether a (proleptic Gregorian) year is a leap year. -/
def isLeapYear (y : Int) : Bool :=
  (y % 4 == 0 && y % 100 != 0) || (y % 400 == 0)

/-- Days in a month. -/
def daysInMonth (y m : Int) : Int :=
  if m == 2 then (if isLeapYear y then 29 else 28)
  else if m == 4 || m == 6 || m == 9 || m == 11 then 30
  else 31

/-- Two decimal digits. -/
def twoDigits : Char → Char → Option Nat
  | a, b => if a.isDigit && b.isDigit then some ((a.toNat - 48) * 10 + (b.toNat - 48)) else none

/-- Parse the `YYYY-MM-DD` head of an ISO string, with range validation. -/
def parseIsoDate : List Char → Option (Int × Int × Int × List Char)
  | y1 :: y2 :: y3 :: y4 :: '-' :: m1 :: m2 :: '-' :: d1 :: d2 :: rest => do
    let yh ← twoDigits y1 y2
    let yl ← twoDigits y3 y4
    let mo ← twoDigits m1 m2
    let dy ← twoDigits d1 d2
    let y : Int := yh * 100 + yl
    if 1 ≤ (mo : Int) && (mo : Int) ≤ 12 && 1 ≤ (dy : Int) && (dy : Int) ≤ daysInMonth y mo then
      pure (y, (mo : Int), (dy : Int), rest)
    else none
  | _ => none

/-- Parse the optional `±HH:MM` / `Z` timezone suffix of an ISO string
(must consume the rest of the input). -/
def parseIsoOffset : List Char → Option (Option TzInfo)
  | [] => some none
  | ['Z'] => some (some (.utcOffset 0))
  | s :: h1 :: h2 :: ':' :: m1 :: m2 :: [] => do
    let h ← twoDigits h1 h2
    let m ← twoDigits m1 m2
    if m ≤ 59 then
      match s with
      | '+' => some (some (.utcOffset ((h : Int) * 60 + m)))
      | '-' => some (some (.utcOffset (-((h : Int) * 60 + m))))
      | _ => none
    else none
  | _ => none

/-- Parse the `HH[:MM[:SS]]` time-of-day part of an ISO string followed by
an optional timezone suffix (sub-second fractions are not modelled). -/
def parseIsoTime : List Char → Option (Nat × Option TzInfo)
  | h1 :: h2 :: rest => do
    let h ← twoDigits h1 h2
    if h ≥ 24 then none
    else
      match rest with
      | ':' :: m1 :: m2 :: rest2 => do
        let mi ← twoDigits m1 m2
        if mi ≥ 60 then none
        else
          match rest2 with
          | ':' :: s1 :: s2 :: rest3 => do
            let se ← twoDigits s1 s2
            if se ≥ 60 then none
            else do
              let tz ← parseIsoOffset rest3
              pure (h * 3600 + mi * 60 + se, tz)
          | _ => do
            let tz ← parseIsoOffset rest2
            pure (h * 3600 + mi * 60, tz)
      | _ => do
        let tz ← parseIsoOffset rest
        pure (h * 3600, tz)
  | _ => none

/-- Model of `datetime.fromisoformat`: a `YYYY-MM-DD` date, optionally
followed by a single separator character and a time of day with an
optional UTC offset.  `none` models the `ValueError` the source catches. -/
def fromisoformat (s : String) : Option PyDateTime :=
  match parseIsoDate s.data with
  | none => none
  | some (y, mo, dy, rest) =>
    match rest with
    | [] => some ⟨daysFromCivil y mo dy * 86400, none⟩
    | _ :: timeChars => do
      let (tsecs, tz) ← parseIsoTime timeChars
      pure ⟨daysFromCivil y mo dy * 86400 + tsecs, tz⟩

/-! Voice-agent webhook (`POST /api/vapi/webhook`, `vapi_webhook`,
`api_server.py` lines 204-343).  The Google Calendar service is modelled
by an oracle `cal : CalendarEvent → Except PyError Unit` standing for
`get_google_service` + `events().insert().execute()` (its failure — for
any reason — is what the handler's inner `try` catches); outbound
WhatsApp sends are fire-and-forget and their responses unobserved. -/

/-- The clinic's fixed timezone (`CLINIC_TZ` in the source). -/
def CLINIC_TZ : String := "America/New_York"

/-- A calendar event body as submitted to the calendar API by the booking
handler.  `start`/`end` dateTime values are kept as datetimes (the source
serializes them with `isoformat()`). -/
structure CalendarEvent where
  summary : String
  description : String
  startDateTime : PyDateTime
  startTimeZone : String
  endDateTime : PyDateTime
  endTimeZone : String
  deriving DecidableEq

/-- Attach the clinic timezone when the parsed start is naive
(`start_time.replace(tzinfo=ZoneInfo(CLINIC_TZ))`). -/
def attachClinicTz (dt : PyDateTime) : PyDateTime :=
  if dt.tz = none then ⟨dt.secs, some (.zone CLINIC_TZ)⟩ else dt

/-- The string handed to `datetime.fromisoformat` by the booking handler
(lines 251-256): a bare time containing `:` but no `T` is combined with
the day as `day`+`T`+`time`; otherwise the time value itself is parsed. -/
def bookStartStr (dayV : Option Json) (timeJ : Json) : Except PyError String := do
  let hasT ← pyIn "T" timeJ
  if !hasT then do
    let hasColon ← pyIn ":" timeJ
    if hasColon then pure (pyStrOpt dayV ++ "T" ++ pyStr timeJ)
    else pure (pyStr timeJ)
  else pure (pyStr timeJ)

/-- The parsed booking start (lines 251-256): `fromisoformat` of the
combined string, a parse failure raising `ValueError`. -/
def bookParse (dayV : Option Json) (timeJ : Json) : Except PyError PyDateTime := do
  let startStr ← bookStartStr dayV timeJ
  match fromisoformat startStr with
  | some dt => pure dt
  | none => .error (.valueError ("Invalid isoformat string: " ++ qS ++ startStr ++ qS))

/-- The calendar event body built by the booking handler (lines 258-269):
the clinic timezone is forced on a naive start, the end is the start plus
one hour, and both carry the clinic timezone label. -/
def bookEvent (nameV : Option Json) (procV : Json) (start0 : PyDateTime) : CalendarEvent :=
  let startTime := attachClinicTz start0
  let endTime : PyDateTime := ⟨startTime.secs + 3600, startTime.tz⟩
  ⟨"Appt: " ++ pyStrOpt nameV ++ " (" ++ pyStr procV ++ ")",
   "Booked via AI Agent. Procedure: " ++ pyStr procV,
   startTime, CLINIC_TZ, endTime, CLINIC_TZ⟩

/-- The insert stage of the booking handler (lines 264-277): builds the
event, submits it, and renders the success or failure text; either way the
event body was submitted. -/
def bookInsert (cal : CalendarEvent → Except PyError Unit) (nameV dayV : Option Json)
    (procV timeJ : Json) (start0 : PyDateTime) : String × List CalendarEvent :=
  let event := bookEvent nameV procV start0
  match cal event with
  | .ok _ => ("Success! Appointment booked for " ++ pyStrOpt dayV ++ " at " ++ pyStr timeJ ++ ".", [event])
  | .error e => ("Failed to book calendar event: " ++ pyErrStr e, [event])

/-- The booking handler (lines 237-277): extracts name/day/time/procedure,
requires day and time, parses the start (bare `HH:MM` combined with the
day, otherwise a full ISO string), forces the clinic timezone on naive
results, books a one-hour event.  Returns the textual result plus the
list of event bodies submitted to the calendar API (empty when parsing
failed before the insert call; the inner `try` of lines 247-277 catches
everything from service acquisition to the insert). -/
def bookAppointment (cal : CalendarEvent → Except PyError Unit) (args : Json) :
    Except PyError (String × List CalendarEvent) := do
  let nameV := pyOrOpt (← pyGet args "name") (← pyGet args "customer_name")
  let dayV := pyOrOpt (← pyGet args "day") (← pyGet args "date")
  let timeV ← pyGet args "time"
  let procV := pyOrDefault (← pyGet args "procedure_type") (Json.str "Dental Checkup")
  if !(optJTruthy dayV && optJTruthy timeV) then
    pure ("Error: Missing day or time.", [])
  else
    let timeJ := optToJson timeV
    match bookParse dayV timeJ with
    | .error e => pure ("Failed to book calendar event: " ++ pyErrStr e, [])
    | .ok start0 => pure (bookInsert cal nameV dayV procV timeJ start0)

/-- Python `os.getenv(a) or os.getenv(b)`: the first value when set and
non-empty, else the second lookup. -/
def orEnv (env : String → Option String) (a b : String) : Option String :=
  match env a with
  | some s => if s != "" then some s else env b
  | none => env b

/-- Truthiness of an optional string (absent or empty is falsy). -/
def optStrTruthy : Option String → Bool
  | none => false
  | some s => s != ""

/-- The `send_whatsapp_details` tool handler (lines 280-312): requires a
phone number; with credentials present the outbound send is
fire-and-forget (response ignored), without them it reports a skip.  All
exceptions are caught into the returned text. -/
def sendWhatsappDetails (env : String → Option String) (args : Json) : String :=
  match (do
      let phone ← pyGet args "phone_number"
      let _proc ← pyGetD args "procedure_type" (Json.str "services")
      if optJTruthy phone then
        let token := orEnv env "VITE_WHATSAPP_ACCESS_TOKEN" "WHATSAPP_ACCESS_TOKEN"
        let phoneId := orEnv env "VITE_WHATSAPP_PHONE_ID" "WHATSAPP_PHONE_ID"
        if optStrTruthy token && optStrTruthy phoneId then
          pure "WhatsApp sent successfully."
        else
          pure "WhatsApp skipped (credentials missing)."
      else
        pure "Error: No phone number provided."
    : Except PyError String) with
  | .ok s => s
  | .error e => "Failed to send WhatsApp: " ++ pyErrStr e

/-- Argument normalization (lines 226-232): string arguments are decoded
with `json.loads`, falling back to an empty dict on failure; non-strings
pass through. -/
def normalizeArgs (fargs : Json) : Json :=
  match fargs with
  | .str s => (jsonLoads s).getD (Json.obj [])
  | _ => fargs

/-- Dispatch of one tool call by function name (lines 236-330), returning
the textual result and the calendar events submitted. -/
def dispatchTool (env : String → Option String) (cal : CalendarEvent → Except PyError Unit)
    (fname : Json) (args : Json) : Except PyError (String × List CalendarEvent) :=
  if jsonEqStr fname "book_appointment" || jsonEqStr fname "schedule_dental_appointment" then
    bookAppointment cal args
  else if jsonEqStr fname "send_whatsapp_details" then
    .ok (sendWhatsappDetails env args, [])
  else if jsonEqStr fname "schedule_followup" then do
    let _reason ← pyGet args "reason"
    let _date ← pyGet args "date"
    pure ("Followup noted.", [])
  else if jsonEqStr fname "update_lead_data" then
    .ok ("Lead data updated.", [])
  else
    .ok ("Function " ++ pyStr fname ++ " executed (simulated).", [])

/-- Processing of a single element of `toolCalls` (lines 217-335):
extraction of name/arguments/id, argument normalization, dispatch, and
the result object appended for this call. -/
def runToolCall (env : String → Option String) (cal : CalendarEvent → Except PyError Unit)
    (tc : Json) : Except PyError (Json × List CalendarEvent) := do
  let fObj ← pySub tc "function"
  let fname ← pySub fObj "name"
  let fargs ← pySub fObj "arguments"
  let callId ← pySub tc "id"
  let args := normalizeArgs fargs
  let (content, evs) ← dispatchTool env cal fname args
  pure (Json.obj [("toolCallId", callId), ("result", Json.str content)], evs)

/-- The tool-call loop.  An exception aborts the remaining calls (the
results built so far are discarded by the outer handler, but calendar
events already submitted stand). -/
def vapiDispatch (env : String → Option String) (cal : CalendarEvent → Except PyError Unit) :
    List Json → List Json × List CalendarEvent × Option PyError
  | [] => ([], [], none)
  | tc :: rest =>
    match runToolCall env cal tc with
    | .error e => ([], [], some e)
    | .ok (r, evs) =>
      let (rs, es, err) := vapiDispatch env cal rest
      (r :: rs, evs ++ es, err)

/-- JSON body of an uncaught-exception response
(`jsonify({'error': str(e)})`). -/
def errBody (e : PyError) : Json :=
  Json.obj [("error", Json.str (pyErrStr e))]

/-- The `vapi_webhook` route handler: `(status, body)` of the response
plus the calendar events submitted while handling it. -/
def vapi_webhook (env : String → Option String) (cal : CalendarEvent → Except PyError Unit)
    (body : Json) : (Nat × Json) × List CalendarEvent :=
  match (do
      let hasMsg ← pyIn "message" body
      if !hasMsg then pure none
      else do
        let msgV ← pySub body "message"
        let hasType ← pyIn "type" msgV
        if !hasType then pure none
        else do
          let msgType ← pySub msgV "type"
          if !(jsonEqStr msgType "tool-calls") then pure none
          else do
            let tcv ← pySub msgV "toolCalls"
            let tcs ← pyIter tcv
            pure (some tcs)
    : Except PyError (Option (List Json))) with
  | .error e => ((500, errBody e), [])
  | .ok none => ((200, Json.obj [("status", Json.str "ignored")]), [])
  | .ok (some tcs) =>
    match vapiDispatch env cal tcs with
    | (results, evs, none) => ((200, Json.obj [("results", Json.arr results)]), evs)
    | (_, evs, some e) => ((500, errBody e), evs)

/-! Webhook verification (`GET /api/whatsapp/webhook` and
`GET /api/instagram/webhook`, lines 371-386 and 480-496).  Query
parameters are `Option String` (`request.args.get`); the response body is
`Option String` because a successful match returns the challenge
parameter, which Flask receives as-is. -/

/-- Common body of both verification handlers: `if mode and token:` then
the subscribe/token test, else 400. -/
def verifyWebhookCore (verifyToken : String) (mode token challenge : Option String) :
    Nat × Option String :=
  if optStrTruthy mode && optStrTruthy token then
    if mode == some "subscribe" && token == some verifyToken then (200, challenge)
    else (403, some "Forbidden")
  else (400, some "Bad Request")

/-- The WhatsApp verify token
(`os.getenv('WHATSAPP_VERIFY_TOKEN', 'nova_sync_secret')`). -/
def waVerifyToken (env : String → Option String) : String :=
  (env "WHATSAPP_VERIFY_TOKEN").getD "nova_sync_secret"

/-- The Instagram verify token (falls back to the WhatsApp one, then the
literal default). -/
def igVerifyToken (env : String → Option String) : String :=
  (env "INSTAGRAM_VERIFY_TOKEN").getD (waVerifyToken env)

/-- `verify_whatsapp_webhook` (lines 371-386). -/
def verify_whatsapp_webhook (env : String → Option String)
    (mode token challenge : Option String) : Nat × Option String :=
  verifyWebhookCore (waVerifyToken env) mode token challenge

/-- `verify_instagram_webhook` (lines 480-496). -/
def verify_instagram_webhook (env : String → Option String)
    (mode token challenge : Option String) : Nat × Option String :=
  verifyWebhookCore (igVerifyToken env) mode token challenge

/-! In-memory message store and the messaging endpoints (lines 346-595).
Stored messages are the JSON dicts the source builds; the store is the
global `messages_store` list, newest first.  `datetime.now()` values are
parameters (`strftime` results and epoch timestamps). -/

/-- The pre-populated WhatsApp sample message (lines 349-358); `t` is the
startup clock rendered by `strftime("%I:%M %p")`. -/
def waSampleMsg (t : String) : Json :=
  Json.obj [("id", Json.str "init_msg_1"), ("platform", Json.str "whatsapp"),
    ("sender", Json.str "New Patient (Sample)"), ("from", Json.str "+15550009999"),
    ("text", Json.str "Hello! Is this the NovaSync Dental line? (Test Message sent to 555-147-9581)"),
    ("time", Json.str t), ("avatar", Json.str ""), ("unread", Json.bool true)]

/-- The pre-populated Instagram sample message (lines 359-368). -/
def igSampleMsg (t : String) : Json :=
  Json.obj [("id", Json.str "init_msg_ig_1"), ("platform", Json.str "instagram"),
    ("sender", Json.str "instagram_user_123"), ("from", Json.str "ig_123456789"),
    ("text", Json.str "Hi, saw your ad on Instagram! DMing you here."),
    ("time", Json.str t), ("avatar", Json.str ""), ("unread", Json.bool true)]

/-- Initial contents of `messages_store` (lines 348-369): exactly the two
samples, WhatsApp first. -/
def messages_store (t1 t2 : String) : List Json :=
  [waSampleMsg t1, igSampleMsg t2]

/-- The canonical outbound WhatsApp message built by the send handler
(lines 422-431). -/
def waSentMsg (now : Int) (toV textV : Json) : Json :=
  Json.obj [("id", Json.str ("sent_" ++ toString now)),
    ("platform", Json.str "whatsapp"), ("sender", Json.str "me"),
    ("to", toV), ("text", textV),
    ("time", Json.str "Just now"), ("avatar", Json.str ""), ("unread", Json.bool false)]

/-- The canonical outbound Instagram message built by the send handler
(lines 579-588). -/
def igSentMsg (now : Int) (toV textV : Json) : Json :=
  Json.obj [("id", Json.str ("sent_ig_" ++ toString now)),
    ("platform", Json.str "instagram"), ("sender", Json.str "me"),
    ("to", toV), ("text", textV),
    ("time", Json.str "Just now"), ("avatar", Json.str ""), ("unread", Json.bool false)]

/-- `send_whatsapp_message` (`POST /api/whatsapp/send`, lines 389-438).
`now` is the epoch timestamp used in the generated id; `net` is the
outbound Meta response, which is only logged.  Returns the response and
the store after the call. -/
def send_whatsapp_message (_env : String → Option String) (now : Int) (net : Nat × String)
    (body : Json) (store : List Json) : (Nat × Json) × List Json :=
  match (do
      let toV ← pyGet body "to"
      let textV ← pyGet body "text"
      pure (toV, textV)
    : Except PyError (Option Json × Option Json)) with
  | .error e => ((500, errBody e), store)
  | .ok (toV, textV) =>
    if !(optJTruthy toV && optJTruthy textV) then
      ((400, Json.obj [("error", Json.str "Missing to or text")]), store)
    else
      let _ := net
      let newMsg := waSentMsg now (optToJson toV) (optToJson textV)
      ((200, newMsg), newMsg :: store)

/-- `send_instagram_message` (`POST /api/instagram/send`, lines 550-595);
same shape with the Instagram id scheme. -/
def send_instagram_message (_env : String → Option String) (now : Int) (net : Nat × String)
    (body : Json) (store : List Json) : (Nat × Json) × List Json :=
  match (do
      let toV ← pyGet body "to"
      let textV ← pyGet body "text"
      pure (toV, textV)
    : Except PyError (Option Json × Option Json)) with
  | .error e => ((500, errBody e), store)
  | .ok (toV, textV) =>
    if !(optJTruthy toV && optJTruthy textV) then
      ((400, Json.obj [("error", Json.str "Missing to or text")]), store)
    else
      let _ := net
      let newMsg := igSentMsg now (optToJson toV) (optToJson textV)
      ((200, newMsg), newMsg :: store)

/-- Run a loop body over a list threading the store, stopping at the first
exception (an exception aborts the remaining iterations but keeps the
store mutations already made). -/
def foldStop (f : Json → List Json → List Json × Option PyError) :
    List Json → List Json → List Json × Option PyError
  | [], store => (store, none)
  | x :: xs, store =>
    match f x store with
    | (s2, none) => foldStop f xs s2
    | (s2, some e) => (s2, some e)

/-- Processing of one WhatsApp webhook message object (lines 453-472):
builds the canonical message (sender resolved from the contacts/profile
block when present, falling back to the raw sender number) and prepends
it. -/
def waHandleMsg (value msg : Json) (store : List Json) : List Json × Option PyError :=
  match (do
      let fromV ← pyGet msg "from"
      let textD ← pyGetD msg "text" (Json.obj [])
      let msgBody ← pyGetD textD "body" (Json.str "")
      let _timestamp ← pyGet msg "timestamp"
      let contacts ← pyGetD value "contacts" (Json.arr [Json.obj []])
      let c0 ← pyIndex0 contacts
      let profile ← pyGetD c0 "profile" (Json.obj [])
      let senderV ← pyGetD profile "name" (optToJson fromV)
      let idV ← pyGet msg "id"
      pure (Json.obj [("id", optToJson idV), ("platform", Json.str "whatsapp"),
        ("sender", senderV), ("from", optToJson fromV), ("text", msgBody),
        ("time", Json.str "Just now"), ("avatar", Json.str ""), ("unread", Json.bool true)])
    : Except PyError Json) with
  | .ok m => (m :: store, none)
  | .error e => (store, some e)

/-- Processing of one `changes` element of a WhatsApp webhook entry
(lines 450-472). -/
def waHandleChange (change : Json) (store : List Json) : List Json × Option PyError :=
  match (do
      let value ← pyGetD change "value" (Json.obj [])
      let hasMsgs ← pyIn "messages" value
      if hasMsgs then do
        let msgsV ← pySub value "messages"
        let msgs ← pyIter msgsV
        pure (value, msgs)
      else
        pure (value, [])
    : Except PyError (Json × List Json)) with
  | .ok (value, msgs) => foldStop (waHandleMsg value) msgs store
  | .error e => (store, some e)

/-- Processing of one entry of a WhatsApp webhook body (lines 449-472). -/
def waHandleEntry (entry : Json) (store : List Json) : List Json × Option PyError :=
  match (do
      let changesV ← pyGetD entry "changes" (Json.arr [])
      pyIter changesV
    : Except PyError (List Json)) with
  | .ok changes => foldStop waHandleChange changes store
  | .error e => (store, some e)

/-- `whatsapp_webhook` (`POST /api/whatsapp/webhook`, lines 440-477):
walks entry → changes → value → messages, prepending a canonical message
per webhook message; always acknowledges with `EVENT_RECEIVED` unless an
exception was raised, which yields a 500 plain-text response. -/
def whatsapp_webhook (body : Json) (store : List Json) : (Nat × String) × List Json :=
  match (do
      let hasEntry ← pyIn "entry" body
      if hasEntry then do
        let entriesV ← pySub body "entry"
        pyIter entriesV
      else
        pure []
    : Except PyError (List Json)) with
  | .error _ => ((500, "Internal Server Error"), store)
  | .ok entries =>
    match foldStop waHandleEntry entries store with
    | (s2, none) => ((200, "EVENT_RECEIVED"), s2)
    | (s2, some _) => ((500, "Internal Server Error"), s2)

/-- `process_instagram_event` (lines 524-548): canonicalizes a standard
Instagram messaging event, skipping events without text. -/
def process_instagram_event (msg : Json) (store : List Json) : List Json × Option PyError :=
  match (do
      let senderD ← pyGetD msg "sender" (Json.obj [])
      let senderId ← pyGet senderD "id"
      let recipientD ← pyGetD msg "recipient" (Json.obj [])
      let _recipientId ← pyGet recipientD "id"
      let hasMessage ← pyIn "message" msg
      if hasMessage then do
        let messageObj ← pySub msg "message"
        let text ← pyGetD messageObj "text" (Json.str "")
        if !(pyTruthy text) then
          pure none
        else do
          let mid ← pyGet messageObj "mid"
          pure (some (Json.obj [("id", optToJson mid), ("platform", Json.str "instagram"),
            ("sender", Json.str "Instagram User"), ("from", optToJson senderId),
            ("text", text), ("time", Json.str "Just now"), ("avatar", Json.str ""),
            ("unread", Json.bool true)]))
      else
        pure none
    : Except PyError (Option Json)) with
  | .ok (some m) => (m :: store, none)
  | .ok none => (store, none)
  | .error e => (store, some e)

/-- Processing of one `changes` element of an Instagram webhook entry
(lines 513-517).  The loop body calls `process_instagram_message_value`,
a name that is defined nowhere in the source, so any non-empty `messages`
list raises `NameError` on its first iteration. -/
def igHandleChange (change : Json) (store : List Json) : List Json × Option PyError :=
  match (do
      let val ← pyGetD change "value" (Json.obj [])
      let hasMsgs ← pyIn "messages" val
      if hasMsgs then do
        let msgsV ← pySub val "messages"
        let msgs ← pyIter msgsV
        match msgs with
        | [] => pure ()
        | _ :: _ => .error (.nameError "process_instagram_message_value")
      else
        pure ()
    : Except PyError Unit) with
  | .ok _ => (store, none)
  | .error e => (store, some e)

/-- Processing of one entry of an Instagram webhook body (lines 506-517):
a `messaging` array is processed event-wise; otherwise a `changes` array
is walked (hitting the undefined processor on any contained message). -/
def igHandleEntry (entry : Json) (store : List Json) : List Json × Option PyError :=
  match (do
      let hasMessaging ← pyIn "messaging" entry
      if hasMessaging then do
        let msgsV ← pySub entry "messaging"
        let msgs ← pyIter msgsV
        pure (Sum.inl msgs)
      else do
        let hasChanges ← pyIn "changes" entry
        if hasChanges then do
          let changesV ← pySub entry "changes"
          let changes ← pyIter changesV
          pure (Sum.inr changes)
        else
          pure (Sum.inl [])
    : Except PyError (List Json ⊕ List Json)) with
  | .ok (Sum.inl msgs) => foldStop process_instagram_event msgs store
  | .ok (Sum.inr changes) => foldStop igHandleChange changes store
  | .error e => (store, some e)

/-- `instagram_webhook` (`POST /api/instagram/webhook`, lines 498-522). -/
def instagram_webhook (body : Json) (store : List Json) : (Nat × String) × List Json :=
  match (do
      let hasEntry ← pyIn "entry" body
      if hasEntry then do
        let entriesV ← pySub body "entry"
        pyIter entriesV
      else
        pure []
    : Except PyError (List Json)) with
  | .error _ => ((500, "Internal Server Error"), store)
  | .ok entries =>
    match foldStop igHandleEntry entries store with
    | (s2, none) => ((200, "EVENT_RECEIVED"), s2)
    | (s2, some _) => ((500, "Internal Server Error"), s2)

/-- A store-mutating request: the four handlers that touch
`messages_store`.  Each carries the request data and the modelled
environment/clock/upstream inputs of that handler. -/
inductive StoreOp where
  | waSend (env : String → Option String) (now : Int) (net : Nat × String) (body : Json) : StoreOp
  | igSend (env : String → Option String) (now : Int) (net : Nat × String) (body : Json) : StoreOp
  | waHook (body : Json) : StoreOp
  | igHook (body : Json) : StoreOp

/-- The store after one request. -/
def applyOp (op : StoreOp) (store : List Json) : List Json :=
  match op with
  | .waSend env now net body => (send_whatsapp_message env now net body store).2
  | .igSend env now net body => (send_instagram_message env now net body store).2
  | .waHook body => (whatsapp_webhook body store).2
  | .igHook body => (instagram_webhook body store).2

/-- The store after a sequence of requests (earliest first). -/
def applyOps : List StoreOp → List Json → List Json
  | [], store => store
  | op :: ops, store => applyOps ops (applyOp op store)

/-! Ads aggregation (`GET /api/meta/campaigns`, `get_meta_campaigns`,
lines 598-737).  The campaign-list response and the per-campaign insights
responses are inputs (the handler only consumes their decoded bodies);
float arithmetic of the source is modelled exactly over rationals. -/

/-- Round-half-to-even of a rational to an integer (Python's `round`
tie-breaking). -/
def roundHalfEven (q : ℚ) : Int :=
  let f := ⌊q⌋
  let r := q - (f : ℚ)
  if r < 1 / 2 then f
  else if 1 / 2 < r then f + 1
  else if f % 2 = 0 then f else f + 1

/-- Python `round(x, 2)` over the rational model. -/
def pyRound2 (q : ℚ) : ℚ :=
  (roundHalfEven (q * 100) : ℚ) / 100

/-- One iteration of the action-extraction loops of lines 678-689: when
the action's type is one of `types`, `int()` of its `value` (default `0`)
is added to the accumulator. -/
def actionStep (types : List String) (acc : Int) (a : Json) : Except PyError Int := do
  let t ← pyGet a "action_type"
  if (match t with | some v => types.any (fun s => jsonEqStr v s) | none => false) then do
    let vD ← pyGetD a "value" (Json.num 0)
    let v ← pyInt vD
    pure (acc + v)
  else
    pure acc

/-- Sum of the integer `value`s of `actions` whose `action_type` is one of
`types`, mirroring the extraction loops of lines 678-689 (guarded by the
`if actions:` truthiness check). -/
def actionTypeSum (types : List String) (actions : Json) : Except PyError Int :=
  if pyTruthy actions then do
    let items ← pyIter actions
    items.foldlM (actionStep types) 0
  else
    pure 0

/-- The two lead-signaling action types (line 681). -/
def leadActionTypes : List String := ["lead", "onsite_conversion.lead_grouped"]

/-- The two purchase-signaling action types (line 688). -/
def purchaseActionTypes : List String :=
  ["offsite_conversion.fb_pixel_purchase", "onsite_conversion.purchase"]

/-- The leads counter of one campaign's actions array (lines 678-682). -/
def leadsCount (actions : Json) : Except PyError Int :=
  actionTypeSum leadActionTypes actions

/-- The conversions counter of one campaign's actions array
(lines 685-689). -/
def conversionsCount (actions : Json) : Except PyError Int :=
  actionTypeSum purchaseActionTypes actions

/-- One formatted campaign summary (lines 691-704). `idJ`/`nameJ` keep the
raw JSON (rendered as-is, `null` when absent). -/
structure FormattedCampaign where
  idJ : Json
  nameJ : Json
  status : String
  spend : ℚ
  impressions : Int
  clicks : Int
  ctr : ℚ
  cpc : ℚ
  cpm : ℚ
  reach : Int
  leads : Int
  conversions : Int

/-- Character-wise lowercasing (Python `str.lower` restricted to its
ASCII behavior). -/
def strToLower (s : String) : String :=
  String.mk (s.data.map Char.toLower)

/-- `.lower()` of a decoded JSON value (`AttributeError` on non-strings). -/
def pyLower (j : Json) : Except PyError String :=
  match j with
  | .str s => .ok (strToLower s)
  | _ => .error (.attributeError "object has no attribute lower")

/-- Formatting of one campaign joined with its insights record
(lines 673-704). -/
def formatCampaign (camp insights : Json) : Except PyError FormattedCampaign := do
  let actions ← pyGetD insights "actions" (Json.arr [])
  let leads ← leadsCount actions
  let conversions ← conversionsCount actions
  let idV ← pyGet camp "id"
  let nameV ← pyGet camp "name"
  let status ← pyLower (← pyGetD camp "effective_status" (Json.str "unknown"))
  let spend ← pyFloat (← pyGetD insights "spend" (Json.num 0))
  let impressions ← pyInt (← pyGetD insights "impressions" (Json.num 0))
  let clicks ← pyInt (← pyGetD insights "clicks" (Json.num 0))
  let ctr ← pyFloat (← pyGetD insights "ctr" (Json.num 0))
  let cpc ← pyFloat (← pyGetD insights "cpc" (Json.num 0))
  let cpm ← pyFloat (← pyGetD insights "cpm" (Json.num 0))
  let reach ← pyInt (← pyGetD insights "reach" (Json.num 0))
  pure ⟨optToJson idV, optToJson nameV, status, spend, impressions, clicks, ctr, cpc, cpm,
    reach, leads, conversions⟩

/-- Total spend over the formatted campaigns (the `totals` accumulation of
lines 707-712). -/
def sumSpend (fs : List FormattedCampaign) : ℚ := (fs.map (fun f => f.spend)).sum

/-- Total impressions. -/
def sumImpressions (fs : List FormattedCampaign) : Int := (fs.map (fun f => f.impressions)).sum

/-- Total clicks. -/
def sumClicks (fs : List FormattedCampaign) : Int := (fs.map (fun f => f.clicks)).sum

/-- Total leads. -/
def sumLeads (fs : List FormattedCampaign) : Int := (fs.map (fun f => f.leads)).sum

/-- Total reach. -/
def sumReach (fs : List FormattedCampaign) : Int := (fs.map (fun f => f.reach)).sum

/-- The aggregate stats record of the response (lines 714-728). -/
structure AdsStats where
  totalSpend : ℚ
  totalImpressions : Int
  totalClicks : Int
  totalLeads : Int
  totalReach : Int
  avgCTR : ℚ
  avgCPC : ℚ
  deriving DecidableEq

/-- The stats computation (lines 714-728): running totals, the two guarded
averages rounded to 2 decimals, and the final rounding of total spend. -/
def computeStats (fs : List FormattedCampaign) : AdsStats :=
  let avgCTR : ℚ :=
    if 0 < sumImpressions fs then
      pyRound2 (((sumClicks fs : ℚ) / (sumImpressions fs : ℚ)) * 100)
    else 0
  let avgCPC : ℚ :=
    if 0 < sumClicks fs then pyRound2 (sumSpend fs / (sumClicks fs : ℚ))
    else 0
  ⟨pyRound2 (sumSpend fs), sumImpressions fs, sumClicks fs, sumLeads fs, sumReach fs,
    avgCTR, avgCPC⟩

/-- The per-campaign insights fetch (lines 649-661): pairs each campaign
with the first record of its insights response's `data` array (empty dict
when there is none).  `insightsFor` maps the campaign id rendered into the
request URL to the decoded insights response body. -/
def fetchInsights (campaigns : List Json) (insightsFor : String → Json) :
    Except PyError (List (Json × Json)) :=
  campaigns.mapM (fun camp => do
    let campId ← pyGet camp "id"
    let insBody := insightsFor (pyStrOpt campId)
    let insData ← pyGetD insBody "data" (Json.arr [])
    let ins ← if pyTruthy insData then pyIndex0 insData else pure (Json.obj [])
    pure (camp, ins))

/-- The formatting-and-aggregation stage (lines 643-728): insights joined,
campaigns formatted, totals and averages computed. -/
def aggregateCampaigns (campaigns : List Json) (insightsFor : String → Json) :
    Except PyError (List FormattedCampaign × AdsStats) := do
  let pairs ← fetchInsights campaigns insightsFor
  let fs ← pairs.mapM (fun p => formatCampaign p.1 p.2)
  pure (fs, computeStats fs)

/-- Rendering of a formatted campaign into the response JSON
(lines 691-704). -/
def formattedToJson (f : FormattedCampaign) : Json :=
  Json.obj [("id", f.idJ), ("name", f.nameJ), ("status", Json.str f.status),
    ("spend", Json.num f.spend), ("impressions", Json.num f.impressions),
    ("clicks", Json.num f.clicks), ("ctr", Json.num f.ctr), ("cpc", Json.num f.cpc),
    ("cpm", Json.num f.cpm), ("reach", Json.num f.reach), ("leads", Json.num f.leads),
    ("conversions", Json.num f.conversions)]

/-- Rendering of the stats record into the response JSON (lines 715-728;
dict-update keeps `totalSpend` in first position). -/
def statsToJson (st : AdsStats) : Json :=
  Json.obj [("totalSpend", Json.num st.totalSpend),
    ("totalImpressions", Json.num st.totalImpressions),
    ("totalClicks", Json.num st.totalClicks), ("totalLeads", Json.num st.totalLeads),
    ("totalReach", Json.num st.totalReach), ("avgCTR", Json.num st.avgCTR),
    ("avgCPC", Json.num st.avgCPC)]

/-- `get_meta_campaigns` (`GET /api/meta/campaigns`): credentials check,
error passthrough of a failed campaign-list call, then aggregation.
`campResp` is the campaign-list response (status, decoded body);
`insightsFor` the insights responses.  URL construction (including the
`act_` account-id normalization) is not modelled because responses are
inputs here. -/
def get_meta_campaigns (env : String → Option String) (campResp : Nat × Json)
    (insightsFor : String → Json) : Nat × Json :=
  let accessToken := env "VITE_META_ACCESS_TOKEN"
  let adAccountId := env "VITE_META_AD_ACCOUNT_ID"
  if !(optStrTruthy accessToken && optStrTruthy adAccountId) then
    (200, Json.obj [("data", Json.arr []), ("error", Json.str "Missing backend credentials")])
  else if campResp.1 != 200 then
    (campResp.1, Json.obj [("error", Json.str "Meta API Error"), ("details", campResp.2)])
  else
    match (do
        let campaignsV ← pyGetD campResp.2 "data" (Json.arr [])
        let _ ← pyLen campaignsV
        let campaigns ← pyIter campaignsV
        let (fs, stats) ← aggregateCampaigns campaigns insightsFor
        pure (Json.obj [("data", Json.arr (fs.map formattedToJson)),
          ("stats", statsToJson stats)])
      : Except PyError Json) with
    | .ok respBody => (200, respBody)
    | .error e => (500, errBody e)

/-! Statement vocabulary and concrete inputs used by the theorems below. -/

/-- An environment with no variables set. -/
def envEmpty : String → Option String := fun _ => none

/-- A calendar oracle whose inserts always succeed. -/
def calOk : CalendarEvent → Except PyError Unit := fun _ => .ok ()

/-- The booking handler's day extraction
(`args.get("day") or args.get("date")`). -/
def bookDayOf (args : Json) : Except PyError (Option Json) := do
  pure (pyOrOpt (← pyGet args "day") (← pyGet args "date"))

/-- The booking handler's time extraction (`args.get("time")`). -/
def bookTimeOf (args : Json) : Except PyError (Option Json) :=
  pyGet args "time"

/-- Whether a possibly-absent value is a present JSON object. -/
def isObjOpt : Option Json → Bool
  | some (.obj _) => true
  | _ => false

/-- Well-formedness of one submitted tool call: an object carrying an
`id`, and a `function` object carrying a `name` and object-valued
`arguments`. -/
def wfToolCall (tc : Json) : Bool :=
  match objLookup tc "function" with
  | some f =>
    (objLookup tc "id").isSome &&
    (objLookup f "name").isSome &&
    isObjOpt (objLookup f "arguments")
  | none => false

/-- The `id` of a submitted tool call. -/
def idValOf (tc : Json) : Json :=
  (objLookup tc "id").getD Json.null

/-- The function name of a submitted tool call. -/
def toolNameOf (tc : Json) : Json :=
  ((objLookup tc "function").bind (fun f => objLookup f "name")).getD Json.null

/-- The arguments object of a submitted tool call. -/
def toolArgsOf (tc : Json) : Json :=
  ((objLookup tc "function").bind (fun f => objLookup f "arguments")).getD Json.null

/-- Whether a booking argument object misses day or time in the handler's
sense (neither `day` nor `date` truthy, or `time` not truthy). -/
def bookMissingDayTime (args : Json) : Bool :=
  !(optJTruthy (pyOrOpt (objLookup args "day") (objLookup args "date")) &&
    optJTruthy (objLookup args "time"))

/-- Whether a tool call is a booking call whose arguments miss day or
time. -/
def isBookingMissing (tc : Json) : Bool :=
  (jsonEqStr (toolNameOf tc) "book_appointment" ||
   jsonEqStr (toolNameOf tc) "schedule_dental_appointment") &&
  bookMissingDayTime (toolArgsOf tc)

/-- Whether an action's `action_type` is one of the given codes. -/
def actionMatches (types : List String) (a : Json) : Bool :=
  match objLookup a "action_type" with
  | some v => types.any (fun s => jsonEqStr v s)
  | none => false

/-- The integer value an action contributes: its parsed `value`, zero when
absent (only used on actions whose present values parse). -/
def actionValueInt (a : Json) : Int :=
  match objLookup a "value" with
  | none => 0
  | some v => match pyInt v with | .ok n => n | .error _ => 0

/-- Sum of the integer values of actions whose action type is one of the
given codes, absent values contributing zero. -/
def specActionSum (types : List String) (actions : List Json) : Int :=
  (actions.map (fun a => if actionMatches types a then actionValueInt a else 0)).sum

/-- Whether one action's shape lets the extraction loops step over it: an
object whose `value`, when present, parses as an integer. -/
def actionWF (a : Json) : Bool :=
  (match a with | .obj _ => true | _ => false) &&
  (match objLookup a "value" with
   | none => true
   | some v => match pyInt v with | .ok _ => true | .error _ => false)

/-- Actions whose shape lets the extraction loops run to completion. -/
def actionsWellFormed (actions : List Json) : Bool :=
  actions.all actionWF

/-- An actions array whose matching action carries an unparsable value. -/
def badActions : Json :=
  Json.arr [Json.obj [("action_type", Json.str "lead"), ("value", Json.str "abc")]]

/-- A well-formed actions array: 3 leads, 2 purchases, one unrelated
action. -/
def goodActions : List Json :=
  [Json.obj [("action_type", Json.str "lead"), ("value", Json.str "3")],
   Json.obj [("action_type", Json.str "onsite_conversion.purchase"), ("value", Json.str "2")],
   Json.obj [("action_type", Json.str "link_click")]]

/-- Demo campaign list entry with id `c1`. -/
def demoCampaignA : Json :=
  Json.obj [("id", Json.str "c1"), ("effective_status", Json.str "ACTIVE")]

/-- Demo campaign list entry with id `c2`. -/
def demoCampaignB : Json :=
  Json.obj [("id", Json.str "c2"), ("effective_status", Json.str "PAUSED")]

/-- Demo insights responses: impressions 100/100, clicks 10/0,
spend 60/40. -/
def demoInsights : String → Json := fun cid =>
  if cid = "c1" then
    Json.obj [("data", Json.arr [Json.obj [("impressions", Json.str "100"),
      ("clicks", Json.str "10"), ("spend", Json.str "60")]])]
  else if cid = "c2" then
    Json.obj [("data", Json.arr [Json.obj [("impressions", Json.str "100"),
      ("clicks", Json.str "0"), ("spend", Json.str "40")]])]
  else Json.obj []

/-- The formatted summary of `demoCampaignA`. -/
def demoFormattedA : FormattedCampaign :=
  ⟨Json.str "c1", Json.null, "active", 60, 100, 10, 0, 0, 0, 0, 0, 0⟩

/-- The formatted summary of `demoCampaignB`. -/
def demoFormattedB : FormattedCampaign :=
  ⟨Json.str "c2", Json.null, "paused", 40, 100, 0, 0, 0, 0, 0, 0, 0⟩

/-- The aggregate stats of the demo pair. -/
def demoStats : AdsStats :=
  ⟨100, 200, 10, 0, 0, 5, 10⟩

/-- The message object of the concrete two-call webhook body below. -/
def c2Calls : List Json :=
  [Json.obj [("id", Json.str "call_1"), ("function", Json.obj [("name", Json.str "book_appointment"),
     ("arguments", Json.obj [("day", Json.str "2024-05-01")])])],
   Json.obj [("id", Json.str "call_2"), ("function", Json.obj [("name", Json.str "update_lead_data"),
     ("arguments", Json.obj [])])]]

/-- A `tool-calls` message object holding `c2Calls`. -/
def c2Msg : Json :=
  Json.obj [("type", Json.str "tool-calls"), ("toolCalls", Json.arr c2Calls)]

/-- A webhook body submitting the two calls of `c2Calls`. -/
def c2Body : Json :=
  Json.obj [("message", c2Msg)]

/-- A body of message type `tool-calls` without a `toolCalls` key. -/
def c2BadBody : Json :=
  Json.obj [("message", Json.obj [("type", Json.str "tool-calls")])]

/-- Booking arguments for 2024-05-01 at 14:00. -/
def c1Args : Json :=
  Json.obj [("name", Json.str "Alice"), ("day", Json.str "2024-05-01"),
    ("time", Json.str "14:00")]

/-- A send body whose `text` is present but empty. -/
def c7Body : Json :=
  Json.obj [("to", Json.str "+15551234567"), ("text", Json.str "")]

/-- A send body with destination and text both present and non-empty. -/
def c7GoodBody : Json :=
  Json.obj [("to", Json.str "+15550001111"), ("text", Json.str "hi")]

/-- An Instagram webhook body whose changes-path message misses the
expected `text` key. -/
def c8Body : Json :=
  Json.obj [("entry", Json.arr [Json.obj [("changes", Json.arr [Json.obj [("value",
    Json.obj [("messages", Json.arr [Json.obj []])])]])]])]

/-- An Instagram webhook body delivering one text message through the
changes → value → messages path. -/
def c9Body : Json :=
  Json.obj [("entry", Json.arr [Json.obj [("changes", Json.arr [Json.obj [("value",
    Json.obj [("messages", Json.arr [Json.obj [("from", Json.str "user1"),
      ("text", Json.str "hello")]])])]])]])]

/-- A WhatsApp webhook body delivering two messages in one request. -/
def c10TwoMsgBody : Json :=
  Json.obj [("entry", Json.arr [Json.obj [("changes", Json.arr [Json.obj [("value",
    Json.obj [("messages", Json.arr [
      Json.obj [("from", Json.str "111"), ("id", Json.str "w1"),
        ("text", Json.obj [("body", Json.str "a")])],
      Json.obj [("from", Json.str "222"), ("id", Json.str "w2"),
        ("text", Json.obj [("body", Json.str "b")])]])])]])]])]

/-! Theorems.  Helper lemmas first, then one theorem per claim (with
witnesses / counterexamples where applicable). -/

theorem foldStop_grows (f : Json → List Json → List Json × Option PyError)
    (hf : ∀ x s, ∃ p, (f x s).1 = p ++ s) :
    ∀ (xs : List Json) (s : List Json), ∃ p, (foldStop f xs s).1 = p ++ s := by
  intro xs
  induction xs with
  | nil => intro s; exact ⟨[], rfl⟩
  | cons x xs ih =>
    intro s
    obtain ⟨p1, hp1⟩ := hf x s
    cases h : f x s with
    | mk s2 err =>
      rw [h] at hp1
      simp only [] at hp1
      cases err with
      | none =>
        obtain ⟨p2, hp2⟩ := ih s2
        refine ⟨p2 ++ p1, ?_⟩
        simp only [foldStop, h]
        rw [hp2, hp1, List.append_assoc]
      | some e =>
        refine ⟨p1, ?_⟩
        simp only [foldStop, h]
        exact hp1

theorem waHandleMsg_grows (value msg : Json) (s : List Json) :
    ∃ p, (waHandleMsg value msg s).1 = p ++ s := by
  unfold waHandleMsg
  split
  · exact ⟨[_], rfl⟩
  · exact ⟨[], rfl⟩

theorem waHandleChange_grows (change : Json) (s : List Json) :
    ∃ p, (waHandleChange change s).1 = p ++ s := by
  unfold waHandleChange
  split
  · exact foldStop_grows _ (fun x s2 => waHandleMsg_grows _ x s2) _ s
  · exact ⟨[], rfl⟩

theorem waHandleEntry_grows (entry : Json) (s : List Json) :
    ∃ p, (waHandleEntry entry s).1 = p ++ s := by
  unfold waHandleEntry
  split
  · exact foldStop_grows _ waHandleChange_grows _ s
  · exact ⟨[], rfl⟩

theorem whatsapp_webhook_grows (body : Json) (s : List Json) :
    ∃ p, (whatsapp_webhook body s).2 = p ++ s := by
  unfold whatsapp_webhook
  split
  · exact ⟨[], rfl⟩
  · rename_i entries _
    obtain ⟨p, hp⟩ := foldStop_grows _ waHandleEntry_grows entries s
    cases h : foldStop waHandleEntry entries s with
    | mk s2 err =>
      rw [h] at hp
      simp only [] at hp
      cases err with
      | none => exact ⟨p, by simp [h, hp]⟩
      | some e => exact ⟨p, by simp [h, hp]⟩

theorem process_instagram_event_grows (msg : Json) (s : List Json) :
    ∃ p, (process_instagram_event msg s).1 = p ++ s := by
  unfold process_instagram_event
  split
  · exact ⟨[_], rfl⟩
  · exact ⟨[], rfl⟩
  · exact ⟨[], rfl⟩

theorem igHandleChange_grows (change : Json) (s : List Json) :
    ∃ p, (igHandleChange change s).1 = p ++ s := by
  unfold igHandleChange
  split
  · exact ⟨[], rfl⟩
  · exact ⟨[], rfl⟩

theorem igHandleEntry_grows (entry : Json) (s : List Json) :
    ∃ p, (igHandleEntry entry s).1 = p ++ s := by
  unfold igHandleEntry
  split
  · exact foldStop_grows _ process_instagram_event_grows _ s
  · exact foldStop_grows _ igHandleChange_grows _ s
  · exact ⟨[], rfl⟩

theorem instagram_webhook_grows (body : Json) (s : List Json) :
    ∃ p, (instagram_webhook body s).2 = p ++ s := by
  unfold instagram_webhook
  split
  · exact ⟨[], rfl⟩
  · rename_i entries _
    obtain ⟨p, hp⟩ := foldStop_grows _ igHandleEntry_grows entries s
    cases h : foldStop igHandleEntry entries s with
    | mk s2 err =>
      rw [h] at hp
      simp only [] at hp
      cases err with
      | none => exact ⟨p, by simp [h, hp]⟩
      | some e => exact ⟨p, by simp [h, hp]⟩

theorem send_whatsapp_message_grows (env : String → Option String) (now : Int)
    (net : Nat × String) (body : Json) (s : List Json) :
    ∃ p, (send_whatsapp_message env now net body s).2 = p ++ s := by
  unfold send_whatsapp_message
  split
  · exact ⟨[], rfl⟩
  · split
    · exact ⟨[], rfl⟩
    · exact ⟨[_], rfl⟩

theorem send_instagram_message_grows (env : String → Option String) (now : Int)
    (net : Nat × String) (body : Json) (s : List Json) :
    ∃ p, (send_instagram_message env now net body s).2 = p ++ s := by
  unfold send_instagram_message
  split
  · exact ⟨[], rfl⟩
  · split
    · exact ⟨[], rfl⟩
    · exact ⟨[_], rfl⟩

theorem applyOp_grows (op : StoreOp) (s : List Json) :
    ∃ p, applyOp op s = p ++ s := by
  cases op with
  | waSend env now net body => exact send_whatsapp_message_grows env now net body s
  | igSend env now net body => exact send_instagram_message_grows env now net body s
  | waHook body => exact whatsapp_webhook_grows body s
  | igHook body => exact instagram_webhook_grows body s

theorem applyOps_grows : ∀ (ops : List StoreOp) (s : List Json),
    ∃ p, applyOps ops s = p ++ s := by
  intro ops
  induction ops with
  | nil => intro s; exact ⟨[], rfl⟩
  | cons op ops ih =>
    intro s
    obtain ⟨p1, hp1⟩ := applyOp_grows op s
    obtain ⟨p2, hp2⟩ := ih (applyOp op s)
    refine ⟨p2 ++ p1, ?_⟩
    simp only [applyOps]
    rw [hp2, hp1, List.append_assoc]

/-- Claim C10 (corrected): the store starts with exactly the two sample
messages (one whatsapp, one instagram) and is prepend-only: every
mutating request only prepends elements at the front (one per send, one
per canonicalized webhook message), never modifying or removing existing
entries, so after any sequence of requests the prior store contents are
an unchanged suffix and the two samples are the last two elements. -/
theorem claim_C10_store_prepend_only :
    (∀ t1 t2, messages_store t1 t2 = [waSampleMsg t1, igSampleMsg t2] ∧
      objLookup (waSampleMsg t1) "platform" = some (Json.str "whatsapp") ∧
      objLookup (igSampleMsg t2) "platform" = some (Json.str "instagram")) ∧
    (∀ (ops : List StoreOp) (store : List Json), ∃ p, applyOps ops store = p ++ store) ∧
    (∀ (ops : List StoreOp) (t1 t2 : String), ∃ p,
      applyOps ops (messages_store t1 t2) = p ++ [waSampleMsg t1, igSampleMsg t2]) := by
  refine ⟨fun t1 t2 => ⟨rfl, rfl, rfl⟩, applyOps_grows, fun ops t1 t2 => ?_⟩
  exact applyOps_grows ops (messages_store t1 t2)

/-- Claim C10, counterexample to the claim as stated: a WhatsApp webhook
receive carrying two messages inserts two elements in one mutating
operation, not one. -/
theorem claim_C10_counterexample :
    (applyOp (StoreOp.waHook c10TwoMsgBody) (messages_store "12:00 PM" "12:00 PM")).length = 4 ∧
    (applyOp (StoreOp.waHook c10TwoMsgBody) (messages_store "12:00 PM" "12:00 PM")).length ≠
      (messages_store "12:00 PM" "12:00 PM").length + 1 := by
  constructor
  · rfl
  · intro h
    rw [show (applyOp (StoreOp.waHook c10TwoMsgBody) (messages_store "12:00 PM" "12:00 PM")).length = 4 from rfl] at h
    simp [messages_store] at h

/-- Claim C8 (code bug): an Instagram webhook body whose
changes → value → messages event misses the expected `text` key is
answered 500, not with the fixed acknowledgement, because the loop body
calls the undefined `process_instagram_message_value` (`NameError`). -/
theorem claim_C8_failing_eval :
    instagram_webhook c8Body (messages_store "12:00 PM" "12:00 PM") =
      ((500, "Internal Server Error"), messages_store "12:00 PM" "12:00 PM") := rfl

/-- Claim C9 (code bug): an Instagram webhook body delivering a text
message through changes → value → messages is answered 500 with nothing
canonicalized or prepended, because the loop body calls the undefined
`process_instagram_message_value` (`NameError`). -/
theorem claim_C9_failing_eval :
    instagram_webhook c9Body (messages_store "12:00 PM" "12:00 PM") =
      ((500, "Internal Server Error"), messages_store "12:00 PM" "12:00 PM") := rfl

theorem sendExtract_ok {body tv tx : Json}
    (hto : pyGet body "to" = .ok (some tv)) (htxt : pyGet body "text" = .ok (some tx)) :
    (do
      let toV ← pyGet body "to"
      let textV ← pyGet body "text"
      pure (toV, textV)
    : Except PyError (Option Json × Option Json)) = .ok (some tv, some tx) := by
  rw [hto, htxt]; rfl

/-- Claim C5: whenever the ads access token or ad account id is absent,
`GET /api/meta/campaigns` answers HTTP 200 with `data: []` and an `error`
field, never an HTTP error status. -/
theorem claim_C5_missing_credentials (env : String → Option String) (campResp : Nat × Json)
    (insightsFor : String → Json)
    (h : env "VITE_META_ACCESS_TOKEN" = none ∨ env "VITE_META_AD_ACCOUNT_ID" = none) :
    get_meta_campaigns env campResp insightsFor =
      (200, Json.obj [("data", Json.arr []), ("error", Json.str "Missing backend credentials")]) := by
  rcases h with h | h
  · simp [get_meta_campaigns, h, optStrTruthy]
  · simp [get_meta_campaigns, h, optStrTruthy]

/-- Claim C5, witness: a concrete environment with no ads credentials. -/
theorem claim_C5_witness :
    get_meta_campaigns envEmpty (200, Json.obj []) (fun _ => Json.obj []) =
      (200, Json.obj [("data", Json.arr []), ("error", Json.str "Missing backend credentials")]) :=
  claim_C5_missing_credentials envEmpty (200, Json.obj []) (fun _ => Json.obj []) (Or.inl rfl)

theorem verifyWebhookCore_cases (vt : String) (mode token challenge : Option String) :
    ((optStrTruthy mode = true ∧ optStrTruthy token = true) →
      ((mode = some "subscribe" ∧ token = some vt) →
        verifyWebhookCore vt mode token challenge = (200, challenge)) ∧
      (¬(mode = some "subscribe" ∧ token = some vt) →
        verifyWebhookCore vt mode token challenge = (403, some "Forbidden"))) ∧
    (¬(optStrTruthy mode = true ∧ optStrTruthy token = true) →
      verifyWebhookCore vt mode token challenge = (400, some "Bad Request")) := by
  constructor
  · rintro ⟨hm, ht⟩
    have hcond : (optStrTruthy mode && optStrTruthy token) = true := by simp [hm, ht]
    constructor
    · rintro ⟨h1, h2⟩
      subst h1; subst h2
      simp [verifyWebhookCore, hcond]
    · intro hne
      have hbeq : (mode == some "subscribe" && token == some vt) = false := by
        cases h1 : mode == some "subscribe" <;> cases h2 : token == some vt <;>
          simp_all [beq_iff_eq]
      simp [verifyWebhookCore, hcond, hbeq]
  · intro hne
    have hcond : (optStrTruthy mode && optStrTruthy token) = false := by
      cases h1 : optStrTruthy mode <;> cases h2 : optStrTruthy token <;> simp_all
    simp [verifyWebhookCore, hcond]

/-- Claim C6 (corrected): for both verification endpoints, `mode` equal to
"subscribe" with the token equal to the configured verify token echoes the
challenge with 200; if mode and token are both present and non-empty but
do not satisfy that condition the response is 403; if either is absent or
empty the response is 400. -/
theorem claim_C6_webhook_verification (env : String → Option String)
    (mode token challenge : Option String) :
    ((optStrTruthy mode = true ∧ optStrTruthy token = true) →
      ((mode = some "subscribe" ∧ token = some (waVerifyToken env)) →
        verify_whatsapp_webhook env mode token challenge = (200, challenge)) ∧
      (¬(mode = some "subscribe" ∧ token = some (waVerifyToken env)) →
        verify_whatsapp_webhook env mode token challenge = (403, some "Forbidden")) ∧
      ((mode = some "subscribe" ∧ token = some (igVerifyToken env)) →
        verify_instagram_webhook env mode token challenge = (200, challenge)) ∧
      (¬(mode = some "subscribe" ∧ token = some (igVerifyToken env)) →
        verify_instagram_webhook env mode token challenge = (403, some "Forbidden"))) ∧
    (¬(optStrTruthy mode = true ∧ optStrTruthy token = true) →
      verify_whatsapp_webhook env mode token challenge = (400, some "Bad Request") ∧
      verify_instagram_webhook env mode token challenge = (400, some "Bad Request")) := by
  have hw := verifyWebhookCore_cases (waVerifyToken env) mode token challenge
  have hi := verifyWebhookCore_cases (igVerifyToken env) mode token challenge
  refine ⟨fun htr => ⟨(hw.1 htr).1, (hw.1 htr).2, (hi.1 htr).1, (hi.1 htr).2⟩,
    fun hne => ⟨hw.2 hne, hi.2 hne⟩⟩

/-- Claim C6, witness: matching mode and token echo the concrete
challenge on both endpoints. -/
theorem claim_C6_witness :
    verify_whatsapp_webhook envEmpty (some "subscribe") (some "nova_sync_secret")
      (some "challenge123") = (200, some "challenge123") ∧
    verify_instagram_webhook envEmpty (some "subscribe") (some "nova_sync_secret")
      (some "challenge123") = (200, some "challenge123") := by
  have h := claim_C6_webhook_verification envEmpty (some "subscribe")
    (some "nova_sync_secret") (some "challenge123")
  have htr : optStrTruthy (some "subscribe") = true ∧
      optStrTruthy (some "nova_sync_secret") = true := ⟨rfl, rfl⟩
  exact ⟨(h.1 htr).1 ⟨rfl, rfl⟩, (h.1 htr).2.2.1 ⟨rfl, rfl⟩⟩

/-- Claim C6, counterexample to the claim as stated: an empty-valued but
present `hub.mode` parameter with a present non-matching token is
answered 400, not 403. -/
theorem claim_C6_counterexample :
    (some "" : Option String).isSome = true ∧ (some "x" : Option String).isSome = true ∧
    ¬((some "" : Option String) = some "subscribe" ∧
      (some "x" : Option String) = some (waVerifyToken envEmpty)) ∧
    verify_whatsapp_webhook envEmpty (some "") (some "x") (some "c") = (400, some "Bad Request") ∧
    verify_whatsapp_webhook envEmpty (some "") (some "x") (some "c") ≠ (403, some "Forbidden") := by
  refine ⟨rfl, rfl, by decide, rfl, by decide⟩

/-- Claim C7 (corrected): for both send endpoints, a request whose
destination and text are present and truthy always prepends the canonical
outbound message and returns that same object with 200, regardless of the
environment's credentials and of the outbound API response. -/
theorem claim_C7_send_always_stores (env : String → Option String) (now : Int)
    (net : Nat × String) (body : Json) (store : List Json) (tv tx : Json)
    (hto : pyGet body "to" = .ok (some tv)) (htv : pyTruthy tv = true)
    (htxt : pyGet body "text" = .ok (some tx)) (htx : pyTruthy tx = true) :
    send_whatsapp_message env now net body store =
      ((200, waSentMsg now tv tx), waSentMsg now tv tx :: store) ∧
    send_instagram_message env now net body store =
      ((200, igSentMsg now tv tx), igSentMsg now tv tx :: store) := by
  have hdo := sendExtract_ok hto htxt
  constructor
  · unfold send_whatsapp_message
    rw [hdo]
    simp [optJTruthy, htv, htx, optToJson]
  · unfold send_instagram_message
    rw [hdo]
    simp [optJTruthy, htv, htx, optToJson]

/-- Claim C7, witness: a concrete well-formed send body stores and returns
the same message on both endpoints. -/
theorem claim_C7_witness :
    send_whatsapp_message envEmpty 0 (200, "") c7GoodBody [] =
      ((200, waSentMsg 0 (Json.str "+15550001111") (Json.str "hi")),
       [waSentMsg 0 (Json.str "+15550001111") (Json.str "hi")]) ∧
    send_instagram_message envEmpty 0 (200, "") c7GoodBody [] =
      ((200, igSentMsg 0 (Json.str "+15550001111") (Json.str "hi")),
       [igSentMsg 0 (Json.str "+15550001111") (Json.str "hi")]) :=
  claim_C7_send_always_stores envEmpty 0 (200, "") c7GoodBody [] _ _ rfl rfl rfl rfl

/-- Claim C7, counterexample to the claim as stated: a body whose `text`
field is present but empty is answered 400 and nothing is stored. -/
theorem claim_C7_counterexample :
    pyGet c7Body "to" = .ok (some (Json.str "+15551234567")) ∧
    pyGet c7Body "text" = .ok (some (Json.str "")) ∧
    send_whatsapp_message envEmpty 0 (200, "") c7Body [] =
      ((400, Json.obj [("error", Json.str "Missing to or text")]), []) ∧
    (send_whatsapp_message envEmpty 0 (200, "") c7Body []).1.1 ≠ 200 := by
  refine ⟨rfl, rfl, rfl, by decide⟩

theorem except_bind_ok {ε α β : Type} (x : α) (f : α → Except ε β) :
    (Except.ok x : Except ε α) >>= f = f x := rfl

theorem except_pure {ε α : Type} (x : α) :
    (pure x : Except ε α) = .ok x := rfl

theorem specActionSum_cons (types : List String) (a : Json) (l : List Json) :
    specActionSum types (a :: l) =
      (if actionMatches types a then actionValueInt a else 0) + specActionSum types l := by
  simp [specActionSum]

theorem actionStep_wf (types : List String) (acc : Int) (a : Json)
    (ha : actionWF a = true) :
    actionStep types acc a =
      .ok (acc + (if actionMatches types a then actionValueInt a else 0)) := by
  cases a with
  | obj fs =>
    rw [actionWF] at ha
    simp only [Bool.true_and] at ha
    rw [actionStep]
    simp only [pyGet, except_bind_ok]
    cases hm : actionMatches types (Json.obj fs) with
    | true =>
      have hm2 : (match objLookup (Json.obj fs) "action_type" with
          | some v => types.any fun s => jsonEqStr v s
          | none => false) = true := hm
      rw [if_pos hm2, if_pos (show true = true from rfl)]
      simp only [pyGetD, pyGet, except_bind_ok, except_pure]
      cases hv : objLookup (Json.obj fs) "value" with
      | none =>
        simp [hv, actionValueInt, pyInt, intTrunc, except_bind_ok, except_pure]
      | some v =>
        rw [hv] at ha
        cases hpi : pyInt v with
        | ok n =>
          simp [hv, hpi, actionValueInt, except_bind_ok, except_pure]
        | error e => simp [hpi] at ha
    | false =>
      have hm2 : (match objLookup (Json.obj fs) "action_type" with
          | some v => types.any fun s => jsonEqStr v s
          | none => false) = false := hm
      rw [if_neg (by simp [hm2]), if_neg (show ¬false = true by simp)]
      simp [except_pure]
  | null => simp [actionWF] at ha
  | bool b => simp [actionWF] at ha
  | num q => simp [actionWF] at ha
  | str s => simp [actionWF] at ha
  | arr xs => simp [actionWF] at ha

theorem actionFold_wf (types : List String) :
    ∀ (items : List Json) (acc : Int), actionsWellFormed items = true →
      items.foldlM (actionStep types) acc = .ok (acc + specActionSum types items) := by
  intro items
  induction items with
  | nil => intro acc _; simp [specActionSum, except_pure]
  | cons a rest ih =>
    intro acc h
    rw [actionsWellFormed, List.all_cons, Bool.and_eq_true] at h
    rw [List.foldlM_cons, actionStep_wf types acc a h.1, except_bind_ok,
      ih (acc + (if actionMatches types a then actionValueInt a else 0)) h.2,
      specActionSum_cons, ← add_assoc]

theorem actionTypeSum_wf (types : List String) (actions : List Json)
    (h : actionsWellFormed actions = true) :
    actionTypeSum types (Json.arr actions) = .ok (specActionSum types actions) := by
  cases actions with
  | nil => rfl
  | cons a rest =>
    rw [actionTypeSum, if_pos (by rfl)]
    simp only [pyIter, except_bind_ok]
    rw [actionFold_wf types (a :: rest) 0 h]
    simp

/-- Claim C4 (corrected): the leads counter sums the integer values of
actions whose type is `lead` or `onsite_conversion.lead_grouped`, and the
conversions counter those whose type is
`offsite_conversion.fb_pixel_purchase` or `onsite_conversion.purchase`; an
absent value contributes zero, but a present value unparsable as an
integer raises (aborting the request with a 500) instead of contributing
zero. -/
theorem claim_C4_action_sums (actions : List Json)
    (h : actionsWellFormed actions = true) :
    leadsCount (Json.arr actions) = .ok (specActionSum leadActionTypes actions) ∧
    conversionsCount (Json.arr actions) = .ok (specActionSum purchaseActionTypes actions) :=
  ⟨actionTypeSum_wf leadActionTypes actions h, actionTypeSum_wf purchaseActionTypes actions h⟩

/-- Claim C4, witness: a concrete well-formed actions array sums to 3
leads and 2 conversions. -/
theorem claim_C4_witness :
    actionsWellFormed goodActions = true ∧
    leadsCount (Json.arr goodActions) = .ok 3 ∧
    conversionsCount (Json.arr goodActions) = .ok 2 :=
  ⟨rfl, (claim_C4_action_sums goodActions rfl).1, (claim_C4_action_sums goodActions rfl).2⟩

/-- Claim C4, counterexample to the claim as stated: a matching action
whose value is unparsable raises `ValueError` (so it does not contribute
zero; the whole request fails). -/
theorem claim_C4_counterexample :
    leadsCount badActions =
      .error (.valueError ("invalid literal for int() with base 10: " ++ qS ++ "abc" ++ qS)) ∧
    leadsCount badActions ≠ .ok 0 := by
  refine ⟨rfl, ?_⟩
  intro hcontra
  rw [show leadsCount badActions =
    .error (.valueError ("invalid literal for int() with base 10: " ++ qS ++ "abc" ++ qS))
    from rfl] at hcontra
  exact Except.noConfusion hcontra

theorem pyRound2_intCast (n : ℤ) : pyRound2 (n : ℚ) = (n : ℚ) := by
  unfold pyRound2 roundHalfEven
  have h1 : ((n : ℚ) * 100) = ((n * 100 : ℤ) : ℚ) := by push_cast; ring
  rw [h1, Int.floor_intCast]
  norm_num

theorem demo_stats_eval : computeStats [demoFormattedA, demoFormattedB] = demoStats := by
  have hs : sumSpend [demoFormattedA, demoFormattedB] = 100 := by
    norm_num [sumSpend, demoFormattedA, demoFormattedB]
  have hi : sumImpressions [demoFormattedA, demoFormattedB] = 200 := by
    norm_num [sumImpressions, demoFormattedA, demoFormattedB]
  have hc : sumClicks [demoFormattedA, demoFormattedB] = 10 := by
    norm_num [sumClicks, demoFormattedA, demoFormattedB]
  have hl : sumLeads [demoFormattedA, demoFormattedB] = 0 := by
    norm_num [sumLeads, demoFormattedA, demoFormattedB]
  have hr : sumReach [demoFormattedA, demoFormattedB] = 0 := by
    norm_num [sumReach, demoFormattedA, demoFormattedB]
  unfold computeStats
  rw [hs, hi, hc, hl, hr]
  have h5 : ((10 : ℤ) : ℚ) / ((200 : ℤ) : ℚ) * 100 = ((5 : ℤ) : ℚ) := by norm_num
  have h10 : (100 : ℚ) / ((10 : ℤ) : ℚ) = ((10 : ℤ) : ℚ) := by norm_num
  rw [if_pos (by norm_num), if_pos (by norm_num), h5, h10, pyRound2_intCast, pyRound2_intCast]
  have h100 : (100 : ℚ) = ((100 : ℤ) : ℚ) := by norm_num
  rw [h100, pyRound2_intCast]
  show AdsStats.mk _ _ _ _ _ _ _ = demoStats
  unfold demoStats
  norm_num

/-- Claim C3: in the ads aggregation response, avgCTR is
`round(totalClicks / totalImpressions * 100, 2)` when totalImpressions is
positive and 0.0 otherwise, and avgCPC is
`round(totalSpend / totalClicks, 2)` when totalClicks is positive and 0.0
otherwise; with two campaigns having impressions 100/100 and clicks 10/0,
avgCTR is 5.0 and avgCPC is totalSpend / 10 with no division by zero. -/
theorem claim_C3_ads_averages :
    (∀ fs : List FormattedCampaign,
      (computeStats fs).avgCTR =
        (if 0 < sumImpressions fs then
          pyRound2 (((sumClicks fs : ℚ) / (sumImpressions fs : ℚ)) * 100) else 0) ∧
      (computeStats fs).avgCPC =
        (if 0 < sumClicks fs then pyRound2 (sumSpend fs / (sumClicks fs : ℚ)) else 0)) ∧
    (aggregateCampaigns [demoCampaignA, demoCampaignB] demoInsights =
        .ok ([demoFormattedA, demoFormattedB], demoStats) ∧
      demoStats.totalImpressions = 200 ∧ demoStats.totalClicks = 10 ∧
      demoStats.avgCTR = 5 ∧ demoStats.avgCPC = demoStats.totalSpend / 10) := by
  refine ⟨fun fs => ⟨rfl, rfl⟩, ?_, rfl, rfl, rfl, ?_⟩
  · have hskel : aggregateCampaigns [demoCampaignA, demoCampaignB] demoInsights =
        .ok ([demoFormattedA, demoFormattedB], computeStats [demoFormattedA, demoFormattedB]) := rfl
    rw [hskel, demo_stats_eval]
  · show (10 : ℚ) = (100 : ℚ) / 10
    norm_num

theorem except_bind_error {ε α β : Type} (e : ε) (f : α → Except ε β) :
    (Except.error e : Except ε α) >>= f = .error e := rfl

theorem bookStartStr_str (dayV : Option Json) (time : String) :
    bookStartStr dayV (Json.str time) =
      .ok (if !(strContainsSub time "T") && strContainsSub time ":" then
        pyStrOpt dayV ++ "T" ++ time else time) := by
  rw [bookStartStr]
  simp only [pyIn, except_bind_ok]
  cases hT : strContainsSub time "T" <;> cases hC : strContainsSub time ":" <;>
    simp [pyStr, except_pure]

theorem bookParse_strs (day time : String) :
    bookParse (some (Json.str day)) (Json.str time) =
      (match fromisoformat (if !(strContainsSub time "T") && strContainsSub time ":" then
          day ++ "T" ++ time else time) with
       | some dt => .ok dt
       | none => .error (.valueError ("Invalid isoformat string: " ++ qS ++
           (if !(strContainsSub time "T") && strContainsSub time ":" then
             day ++ "T" ++ time else time) ++ qS))) := by
  rw [bookParse, bookStartStr_str, except_bind_ok]
  simp only [pyStrOpt, pyStr]
  cases fromisoformat (if !(strContainsSub time "T") && strContainsSub time ":" then
      day ++ "T" ++ time else time) <;> rfl

theorem bookInsert_evs (cal : CalendarEvent → Except PyError Unit) (nameV dayV : Option Json)
    (procV timeJ : Json) (dt : PyDateTime) :
    (bookInsert cal nameV dayV procV timeJ dt).2 = [bookEvent nameV procV dt] := by
  rw [bookInsert]
  cases cal (bookEvent nameV procV dt) <;> rfl

theorem bookEvent_fields (nameV : Option Json) (procV : Json) (dt : PyDateTime) :
    (bookEvent nameV procV dt).startDateTime = attachClinicTz dt ∧
    (dt.tz = none →
      (bookEvent nameV procV dt).startDateTime = ⟨dt.secs, some (.zone "America/New_York")⟩) ∧
    (bookEvent nameV procV dt).startTimeZone = "America/New_York" ∧
    (bookEvent nameV procV dt).endTimeZone = "America/New_York" ∧
    (bookEvent nameV procV dt).endDateTime.secs = (bookEvent nameV procV dt).startDateTime.secs + 3600 ∧
    (bookEvent nameV procV dt).endDateTime.tz = (bookEvent nameV procV dt).startDateTime.tz := by
  refine ⟨rfl, ?_, rfl, rfl, rfl, rfl⟩
  intro h0
  simp [bookEvent, attachClinicTz, h0, CLINIC_TZ]

/-- Claim C1: for a booking tool call whose arguments carry a (string) day
and time, a time containing `:` and no `T` is combined with the day as
`day`+`T`+`time` and otherwise parsed as a full ISO timestamp; a parsed
start lacking a timezone gets the clinic's fixed `America/New_York`
timezone attached; and every calendar event the handler submits has end
time equal to start time plus exactly one hour (same timezone). -/
theorem claim_C1_booking_event_times (cal : CalendarEvent → Except PyError Unit)
    (args : Json) (day time : String)
    (hd : bookDayOf args = .ok (some (Json.str day)))
    (ht : bookTimeOf args = .ok (some (Json.str time)))
    (hdne : day ≠ "") (htne : time ≠ "") :
    ∃ content evs, bookAppointment cal args = .ok (content, evs) ∧
      ∀ e ∈ evs,
        ∃ dt, fromisoformat (if !(strContainsSub time "T") && strContainsSub time ":" then
            day ++ "T" ++ time else time) = some dt ∧
          e.startDateTime = attachClinicTz dt ∧
          (dt.tz = none → e.startDateTime = ⟨dt.secs, some (.zone "America/New_York")⟩) ∧
          e.startTimeZone = "America/New_York" ∧ e.endTimeZone = "America/New_York" ∧
          e.endDateTime.secs = e.startDateTime.secs + 3600 ∧
          e.endDateTime.tz = e.startDateTime.tz := by
  cases args with
  | obj fs =>
    rw [bookDayOf] at hd
    rw [bookTimeOf, pyGet] at ht
    simp only [pyGet, except_bind_ok, except_pure, Except.ok.injEq] at hd ht
    rw [bookAppointment]
    simp only [pyGet, except_bind_ok, except_pure]
    rw [hd, ht]
    have hcond : (!(optJTruthy (some (Json.str day)) && optJTruthy (some (Json.str time)))) = false := by
      simp [optJTruthy, pyTruthy, hdne, htne]
    rw [hcond]
    simp only [Bool.false_eq_true, if_false, optToJson, Option.getD]
    rw [bookParse_strs]
    cases hiso : fromisoformat (if !(strContainsSub time "T") && strContainsSub time ":" then
        day ++ "T" ++ time else time) with
    | none =>
      refine ⟨_, [], rfl, ?_⟩
      intro e he
      exact absurd he (List.not_mem_nil e)
    | some dt =>
      refine ⟨_, _, rfl, ?_⟩
      intro e he
      cases hcal : cal (bookEvent (pyOrOpt (objLookup (Json.obj fs) "name")
          (objLookup (Json.obj fs) "customer_name"))
          (pyOrDefault (objLookup (Json.obj fs) "procedure_type") (Json.str "Dental Checkup")) dt) with
      | ok u =>
        rw [hcal] at he
        simp only [List.mem_singleton] at he
        subst he
        exact ⟨dt, rfl, bookEvent_fields _ _ dt⟩
      | error e2 =>
        rw [hcal] at he
        simp only [List.mem_singleton] at he
        subst he
        exact ⟨dt, rfl, bookEvent_fields _ _ dt⟩
  | null => simp [bookDayOf, pyGet, except_bind_error] at hd
  | bool b => simp [bookDayOf, pyGet, except_bind_error] at hd
  | num q => simp [bookDayOf, pyGet, except_bind_error] at hd
  | str s => simp [bookDayOf, pyGet, except_bind_error] at hd
  | arr xs => simp [bookDayOf, pyGet, except_bind_error] at hd

/-- Claim C1, witness: booking with day 2024-05-01 and time 14:00 creates
the expected one-hour clinic-timezone event. -/
theorem claim_C1_witness :
    bookAppointment calOk c1Args =
      .ok ("Success! Appointment booked for 2024-05-01 at 14:00.",
        [⟨"Appt: Alice (Dental Checkup)", "Booked via AI Agent. Procedure: Dental Checkup",
          ⟨1714572000, some (.zone "America/New_York")⟩, "America/New_York",
          ⟨1714575600, some (.zone "America/New_York")⟩, "America/New_York"⟩]) ∧
    (∃ content evs, bookAppointment calOk c1Args = .ok (content, evs) ∧
      ∀ e ∈ evs,
        ∃ dt, fromisoformat (if !(strContainsSub "14:00" "T") && strContainsSub "14:00" ":" then
            "2024-05-01" ++ "T" ++ "14:00" else "14:00") = some dt ∧
          e.startDateTime = attachClinicTz dt ∧
          (dt.tz = none → e.startDateTime = ⟨dt.secs, some (.zone "America/New_York")⟩) ∧
          e.startTimeZone = "America/New_York" ∧ e.endTimeZone = "America/New_York" ∧
          e.endDateTime.secs = e.startDateTime.secs + 3600 ∧
          e.endDateTime.tz = e.startDateTime.tz) :=
  ⟨rfl, claim_C1_booking_event_times calOk c1Args "2024-05-01" "14:00" rfl rfl
    (by decide) (by decide)⟩

theorem pySub_of_lookup {d : Json} {k : String} {v : Json} (h : objLookup d k = some v) :
    pySub d k = .ok v := by
  cases d with
  | obj fs => simp [pySub, h]
  | null => simp [objLookup] at h
  | bool b => simp [objLookup] at h
  | num q => simp [objLookup] at h
  | str s => simp [objLookup] at h
  | arr xs => simp [objLookup] at h

theorem pySub_ok_cases {d : Json} {k : String} {v : Json} (h : pySub d k = .ok v) :
    objLookup d k = some v ∧ pyIn k d = .ok true := by
  cases d with
  | obj fs =>
    rw [pySub] at h
    cases hl : objLookup (Json.obj fs) k with
    | some w =>
      rw [hl] at h
      have hw : w = v := by injection h
      subst hw
      refine ⟨rfl, ?_⟩
      have hlk : fs.lookup k = some w := hl
      simp [pyIn, hlk]
    | none => rw [hl] at h; exact absurd h (by simp)
  | null => simp [pySub] at h
  | bool b => simp [pySub] at h
  | num q => simp [pySub] at h
  | str s => simp [pySub] at h
  | arr xs => simp [pySub] at h

theorem bookAppointment_obj (cal : CalendarEvent → Except PyError Unit)
    (af : List (String × Json)) :
    ∃ content evs, bookAppointment cal (Json.obj af) = .ok (content, evs) ∧
      (bookMissingDayTime (Json.obj af) = true → content = "Error: Missing day or time.") := by
  rw [bookAppointment]
  simp only [pyGet, except_bind_ok, except_pure]
  cases hmiss : bookMissingDayTime (Json.obj af) with
  | true =>
    split
    · exact ⟨_, _, rfl, fun _ => rfl⟩
    · rename_i hcnd
      exact absurd hmiss hcnd
  | false =>
    split
    · rename_i hcnd
      have hcnd2 : bookMissingDayTime (Json.obj af) = true := hcnd
      rw [hmiss] at hcnd2
      simp at hcnd2
    · cases hbp : bookParse (pyOrOpt (objLookup (Json.obj af) "day") (objLookup (Json.obj af) "date"))
          (optToJson (objLookup (Json.obj af) "time")) with
      | error e =>
        refine ⟨_, [], rfl, ?_⟩
        intro hcontra
        simp at hcontra
      | ok dt =>
        refine ⟨_, _, rfl, ?_⟩
        intro hcontra
        simp at hcontra

theorem dispatchTool_obj (env : String → Option String) (cal : CalendarEvent → Except PyError Unit)
    (nm : Json) (af : List (String × Json)) :
    ∃ content evs, dispatchTool env cal nm (Json.obj af) = .ok (content, evs) ∧
      (((jsonEqStr nm "book_appointment" || jsonEqStr nm "schedule_dental_appointment") = true ∧
        bookMissingDayTime (Json.obj af) = true) → content = "Error: Missing day or time.") := by
  rw [dispatchTool]
  by_cases hbook : (jsonEqStr nm "book_appointment" || jsonEqStr nm "schedule_dental_appointment") = true
  · rw [if_pos hbook]
    obtain ⟨content, evs, heq, himpl⟩ := bookAppointment_obj cal af
    exact ⟨content, evs, heq, fun hc => himpl hc.2⟩
  · rw [if_neg hbook]
    by_cases h2 : jsonEqStr nm "send_whatsapp_details" = true
    · rw [if_pos h2]
      exact ⟨_, _, rfl, fun hc => absurd hc.1 hbook⟩
    · rw [if_neg h2]
      by_cases h3 : jsonEqStr nm "schedule_followup" = true
      · rw [if_pos h3]
        refine ⟨"Followup noted.", [], ?_, fun hc => absurd hc.1 hbook⟩
        simp [pyGet, except_bind_ok, except_pure]
      · rw [if_neg h3]
        by_cases h4 : jsonEqStr nm "update_lead_data" = true
        · rw [if_pos h4]
          exact ⟨_, _, rfl, fun hc => absurd hc.1 hbook⟩
        · rw [if_neg h4]
          exact ⟨_, _, rfl, fun hc => absurd hc.1 hbook⟩

theorem runToolCall_wf (env : String → Option String) (cal : CalendarEvent → Except PyError Unit)
    (tc : Json) (h : wfToolCall tc = true) :
    ∃ content evs, runToolCall env cal tc =
      .ok (Json.obj [("toolCallId", idValOf tc), ("result", Json.str content)], evs) ∧
      (isBookingMissing tc = true → content = "Error: Missing day or time.") := by
  rw [wfToolCall] at h
  cases hf : objLookup tc "function" with
  | none => rw [hf] at h; simp at h
  | some f =>
    rw [hf] at h
    replace h : (((objLookup tc "id").isSome && (objLookup f "name").isSome) &&
        isObjOpt (objLookup f "arguments")) = true := h
    simp only [Bool.and_eq_true] at h
    obtain ⟨⟨hid, hnm⟩, harg⟩ := h
    rw [Option.isSome_iff_exists] at hid hnm
    obtain ⟨idv, hid⟩ := hid
    obtain ⟨nm, hnm⟩ := hnm
    cases harg2 : objLookup f "arguments" with
    | none => rw [harg2] at harg; simp [isObjOpt] at harg
    | some argv =>
      rw [harg2] at harg
      cases argv with
      | obj af =>
        rw [runToolCall, pySub_of_lookup hf]
        simp only [except_bind_ok]
        rw [pySub_of_lookup hnm]
        simp only [except_bind_ok]
        rw [pySub_of_lookup harg2]
        simp only [except_bind_ok]
        rw [pySub_of_lookup hid]
        simp only [except_bind_ok, normalizeArgs]
        obtain ⟨content, evs, heq, himpl⟩ := dispatchTool_obj env cal nm af
        rw [heq]
        simp only [except_bind_ok, except_pure]
        refine ⟨content, evs, ?_, ?_⟩
        · rw [idValOf, hid]
          rfl
        · intro hb
          apply himpl
          simp only [isBookingMissing, toolNameOf, toolArgsOf, hf, hnm, harg2,
            Option.some_bind, Option.getD_some, Bool.and_eq_true] at hb
          exact hb
      | null => simp [isObjOpt] at harg
      | bool b => simp [isObjOpt] at harg
      | num q => simp [isObjOpt] at harg
      | str s => simp [isObjOpt] at harg
      | arr xs => simp [isObjOpt] at harg

theorem vapiDispatch_wf (env : String → Option String) (cal : CalendarEvent → Except PyError Unit) :
    ∀ calls : List Json, calls.all wfToolCall = true →
      ∃ results evs, vapiDispatch env cal calls = (results, evs, none) ∧
        results.length = calls.length ∧
        ∀ i, i < calls.length →
          ∃ tc content, calls.get? i = some tc ∧
            results.get? i = some (Json.obj [("toolCallId", idValOf tc), ("result", Json.str content)]) ∧
            (isBookingMissing tc = true → content = "Error: Missing day or time.") := by
  intro calls
  induction calls with
  | nil =>
    intro _
    exact ⟨[], [], rfl, rfl, fun i hi => absurd hi (Nat.not_lt_zero i)⟩
  | cons tc rest ih =>
    intro h
    rw [List.all_cons, Bool.and_eq_true] at h
    obtain ⟨c, evs1, heq1, himpl1⟩ := runToolCall_wf env cal tc h.1
    obtain ⟨results, evs2, heq2, hlen, hidx⟩ := ih h.2
    refine ⟨Json.obj [("toolCallId", idValOf tc), ("result", Json.str c)] :: results,
      evs1 ++ evs2, ?_, ?_, ?_⟩
    · rw [vapiDispatch, heq1, heq2]
    · simp [hlen]
    · intro i hi
      cases i with
      | zero => exact ⟨tc, c, rfl, rfl, himpl1⟩
      | succ j =>
        have hj : j < rest.length := Nat.lt_of_succ_lt_succ hi
        exact hidx j hj

/-- Claim C2 (corrected): for a `tool-calls` webhook body whose
`toolCalls` value is an array of well-formed calls (each an object with an
`id` and a `function` object whose `arguments` decode to an object), the
handler responds 200 with exactly one result object per submitted call,
keyed by that call's id; a booking call missing day or time gets the text
result "Error: Missing day or time." inside the 200 response. -/
theorem claim_C2_tool_call_results (env : String → Option String)
    (cal : CalendarEvent → Except PyError Unit) (body msgV : Json) (calls : List Json)
    (hm : pySub body "message" = .ok msgV)
    (ht : pySub msgV "type" = .ok (Json.str "tool-calls"))
    (hc : pySub msgV "toolCalls" = .ok (Json.arr calls))
    (hwf : calls.all wfToolCall = true) :
    ∃ results evs,
      vapi_webhook env cal body = ((200, Json.obj [("results", Json.arr results)]), evs) ∧
      results.length = calls.length ∧
      ∀ i, i < calls.length →
        ∃ tc content, calls.get? i = some tc ∧
          results.get? i = some (Json.obj [("toolCallId", idValOf tc),
            ("result", Json.str content)]) ∧
          (isBookingMissing tc = true → content = "Error: Missing day or time.") := by
  obtain ⟨hlm, him⟩ := pySub_ok_cases hm
  obtain ⟨hlt, hit⟩ := pySub_ok_cases ht
  obtain ⟨hlc, hic⟩ := pySub_ok_cases hc
  obtain ⟨results, evs, heqD, hlen, hidx⟩ := vapiDispatch_wf env cal calls hwf
  rw [vapi_webhook]
  rw [him]
  simp only [except_bind_ok, Bool.not_true, Bool.false_eq_true, if_false]
  rw [hm]
  simp only [except_bind_ok]
  rw [hit]
  simp only [except_bind_ok, Bool.not_true, Bool.false_eq_true, if_false]
  rw [ht]
  simp only [except_bind_ok, jsonEqStr, beq_self_eq_true, Bool.not_true, Bool.false_eq_true,
    if_false]
  rw [hc]
  simp only [except_bind_ok, pyIter, except_pure]
  rw [heqD]
  exact ⟨results, evs, rfl, hlen, hidx⟩

/-- Claim C2, witness: a two-call body (a booking call missing its time
and an update call) gets 200 with one result per call, the booking result
being the error text. -/
theorem claim_C2_witness :
    ∃ results evs,
      vapi_webhook envEmpty calOk c2Body = ((200, Json.obj [("results", Json.arr results)]), evs) ∧
      results.length = c2Calls.length ∧
      ∀ i, i < c2Calls.length →
        ∃ tc content, c2Calls.get? i = some tc ∧
          results.get? i = some (Json.obj [("toolCallId", idValOf tc),
            ("result", Json.str content)]) ∧
          (isBookingMissing tc = true → content = "Error: Missing day or time.") :=
  claim_C2_tool_call_results envEmpty calOk c2Body c2Msg c2Calls rfl rfl rfl rfl

/-- Claim C2, counterexample to the claim as stated: a body of message
type `tool-calls` without a `toolCalls` key is answered 500 (`KeyError`),
not 200. -/
theorem claim_C2_counterexample :
    vapi_webhook envEmpty calOk c2BadBody = ((500, errBody (.keyError "toolCalls")), []) ∧
    (vapi_webhook envEmpty calOk c2BadBody).1.1 ≠ 200 := by
  refine ⟨rfl, by decide⟩
